import Mathlib

/-!
Verification development for the bank-statement report generator (`src/app.py`).

The program is a Python module whose core is `generate_interactive_html`, a
pure function from one parsed JSON document to one HTML string, together with
the schema classifier `detect_schema_version` and the field resolvers
`get_monthly_high` / `get_monthly_low` / `get_integrity_max_points`.

Shallow-embedding conventions used throughout this file:

* JSON values are modelled by the inductive type `Json`.  Numbers are
  modelled as integers (`Int`): the claims under study never depend on
  fractional values or on binary floating-point rounding, and every concrete
  instance exercised below is integral.  Where Python would print a float
  (`:,.2f` etc.) the formatting functions below realise the integer case of
  that format.
* Python expressions that can raise (attribute errors on `.get` of a
  non-dict, `len` of a number, comparing a string with an integer, string
  formatting of a non-number, indexing, `.append` on a non-list, set
  membership of an unhashable value, ...) are modelled in the `Except String`
  monad.  All raised errors are collapsed to the single message `pyErr`:
  the program never inspects exception contents, so a uniform message keeps
  reordering of independent effect-free computations observationally
  inert (an input makes the model return `.error pyErr` exactly when the
  Python code raises on it).
* Python `dict`s coming from `json.loads` have unique keys; object values
  are modelled as association lists read through `List.lookup` (first
  occurrence wins, which agrees with a duplicate-free list).
* `datetime.now().isoformat()` — the one nondeterministic input of the
  compiler — is made explicit: the embedded `generate_interactive_html`
  takes the clock string `now` as a parameter.
-/

/-- The single error message used for every modelled Python exception
(AttributeError, TypeError, KeyError, IndexError, ValueError). -/
def pyErr : String := "python runtime error"

/-- JSON values as produced by `json.loads`, with numbers restricted to
integers (see the header comment). -/
inductive Json where
  | null
  | bool (b : Bool)
  | num (n : Int)
  | str (s : String)
  | arr (elems : List Json)
  | obj (fields : List (String × Json))

/-- Python truthiness (`bool(x)`) for JSON-derived values: `None`, `False`,
`0`, `""`, `[]` and `{}` are falsy, everything else truthy. -/
def Json.truthy : Json → Bool
  | .null => false
  | .bool b => b
  | .num n => n != 0
  | .str s => !s.isEmpty
  | .arr l => !l.isEmpty
  | .obj l => !l.isEmpty

/-- Key lookup on an object; `none` when the value is not an object or the
key is absent. -/
def Json.lookup? : Json → String → Option Json
  | .obj fs, k => fs.lookup k
  | _, _ => none

/-- Python `d.get(k, dflt)`: raises (AttributeError) unless `d` is a dict. -/
def pyGet (d : Json) (k : String) (dflt : Json) : Except String Json :=
  match d with
  | .obj fs => .ok ((fs.lookup k).getD dflt)
  | _ => .error pyErr

mutual
/-- Python equality `==` between JSON-derived values.  `True`/`1` and
`False`/`0` compare equal, as in Python.  Dicts are compared as ordered
field lists: the program only ever compares values against string literals,
so the order-insensitivity of real dict equality is never observable. -/
def pyEq : Json → Json → Bool
  | .null, .null => true
  | .bool a, .bool b => a == b
  | .bool a, .num n => (if a then (1 : Int) else 0) == n
  | .num n, .bool b => n == (if b then (1 : Int) else 0)
  | .num a, .num b => a == b
  | .str a, .str b => a == b
  | .arr a, .arr b => pyEqArr a b
  | .obj a, .obj b => pyEqObj a b
  | _, _ => false

/-- Elementwise Python equality of lists (helper for `pyEq`). -/
def pyEqArr : List Json → List Json → Bool
  | [], [] => true
  | a :: as', b :: bs => pyEq a b && pyEqArr as' bs
  | _, _ => false

/-- Fieldwise equality of object field lists (helper for `pyEq`). -/
def pyEqObj : List (String × Json) → List (String × Json) → Bool
  | [], [] => true
  | (k, v) :: as', (l, w) :: bs => k == l && pyEq v w && pyEqObj as' bs
  | _, _ => false
end

/-- Contiguous-sublist test on character lists (computable infix check). -/
def charsInfix (needle : List Char) : List Char → Bool
  | [] => needle.isEmpty
  | h :: t => needle.isPrefixOf (h :: t) || charsInfix needle t


/-- Charwise lowercase (reduction-friendly model of Python `.lower()` on
the program's ASCII data). -/
def strLower (s : String) : String := ⟨s.data.map Char.toLower⟩

/-- Charwise uppercase (reduction-friendly model of Python `.upper()`). -/
def strUpper (s : String) : String := ⟨s.data.map Char.toUpper⟩

/-- Single-character replacement (the program only replaces `/` by `_`). -/
def strReplaceChar (a b : Char) (s : String) : String :=
  ⟨s.data.map fun c => if c = a then b else c⟩

/-- Split a character list on a single-character separator (the program
only splits on `-`), with Python `str.split` semantics. -/
def splitOnChar (sep : Char) : List Char → List (List Char)
  | [] => [[]]
  | c :: rest =>
      if c = sep then [] :: splitOnChar sep rest
      else
        match splitOnChar sep rest with
        | [] => [[c]]
        | h :: t => (c :: h) :: t

/-- `splitOnChar` lifted to strings. -/
def strSplitChar (sep : Char) (s : String) : List String :=
  (splitOnChar sep s.data).map fun l => ⟨l⟩

/-- Value of a nonempty all-digit character list. -/
def digitsVal? (l : List Char) : Option Nat :=
  if l.isEmpty || !l.all Char.isDigit then none
  else some (l.foldl (fun acc c => acc * 10 + (c.toNat - '0'.toNat)) 0)

/-- Python `a or b` on values: the first truthy operand, else `b`. -/
def pyOr (a b : Json) : Json := if a.truthy then a else b

/-- Python `x[0]` for a truthy sequence: first element of a list, first
character of a string; anything else (dict with string keys, number, bool,
None) raises. -/
def pyIndex0 : Json → Except String Json
  | .arr (x :: _) => .ok x
  | .str s => if s.isEmpty then .error pyErr else .ok (.str (s.take 1))
  | _ => .error pyErr

/-- Python iteration `for x in j`: list elements, string characters, dict
keys; numbers/bools/None raise TypeError. -/
def pyIter : Json → Except String (List Json)
  | .arr l => .ok l
  | .str s => .ok (s.data.map fun c => .str c.toString)
  | .obj fs => .ok (fs.map fun kv => .str kv.1)
  | _ => .error pyErr

/-- Python `len(j)` for sized values; numbers/bools/None raise. -/
def pyLen : Json → Except String Nat
  | .str s => .ok s.length
  | .arr l => .ok l.length
  | .obj fs => .ok fs.length
  | _ => .error pyErr

/-- Python `needle in j`: substring test on strings, key test on dicts,
membership on lists; anything else raises. -/
def pyContains (needle : String) : Json → Except String Bool
  | .obj fs => .ok (fs.any fun kv => kv.1 == needle)
  | .str s => .ok (charsInfix needle.data s.data)
  | .arr xs => .ok (xs.any fun x => pyEq x (.str needle))
  | _ => .error pyErr

/-- Python `s.startswith(p)`: only strings have `startswith`. -/
def pyStartsWith (j : Json) (p : String) : Except String Bool :=
  match j with
  | .str s => .ok (p.data.isPrefixOf s.data)
  | _ => .error pyErr

/-- Numeric coercion used by arithmetic and comparisons: Python treats
`True`/`False` as `1`/`0`; other non-numbers raise TypeError. -/
def pyToInt : Json → Except String Int
  | .num n => .ok n
  | .bool b => .ok (if b then 1 else 0)
  | _ => .error pyErr

/-- Python `j < k` against an integer literal. -/
def pyLtInt (j : Json) (k : Int) : Except String Bool := do
  let n ← pyToInt j
  pure (n < k)

/-- Python `j > k` against an integer literal. -/
def pyGtInt (j : Json) (k : Int) : Except String Bool := do
  let n ← pyToInt j
  pure (n > k)

/-- Python `j >= k` against an integer literal. -/
def pyGeInt (j : Json) (k : Int) : Except String Bool := do
  let n ← pyToInt j
  pure (n ≥ k)

/-- Python `l < j` where `l` is a Python int (e.g. a `len(...)`). -/
def pyNatLt (l : Nat) (j : Json) : Except String Bool := do
  let n ← pyToInt j
  pure ((l : Int) < n)

/-- Python `acc + j` while summing JSON values. -/
def pyAdd (acc : Int) (j : Json) : Except String Int := do
  let n ← pyToInt j
  pure (acc + n)

/-- Python `a - b` on JSON values. -/
def pySub (a b : Json) : Except String Json := do
  let x ← pyToInt a
  let y ← pyToInt b
  pure (.num (x - y))

mutual
/-- Python `str(x)` for JSON-derived values: strings unquoted, containers
printed with `repr` of their elements. -/
def pyStr : Json → String
  | .str s => s
  | j => pyRepr j

/-- Python `repr(x)` for JSON-derived values.  String escaping inside
`repr` is not modelled (the program only displays these). -/
def pyRepr : Json → String
  | .null => "None"
  | .bool b => if b then "True" else "False"
  | .num n => toString n
  | .str s => "\x27" ++ s ++ "\x27"
  | .arr xs => "[" ++ pyReprList xs ++ "]"
  | .obj fs => "\x7b" ++ pyReprObj fs ++ "\x7d"

/-- Comma-separated `repr`s of list elements. -/
def pyReprList : List Json → String
  | [] => ""
  | [x] => pyRepr x
  | x :: xs => pyRepr x ++ ", " ++ pyReprList xs

/-- Comma-separated `'key': repr(value)` pairs. -/
def pyReprObj : List (String × Json) → String
  | [] => ""
  | [(k, v)] => "\x27" ++ k ++ "\x27: " ++ pyRepr v
  | (k, v) :: fs => "\x27" ++ k ++ "\x27: " ++ pyRepr v ++ ", " ++ pyReprObj fs
end

/-- Minimal JSON string escaping as performed by `json.dumps` (quote,
backslash and the common control characters; inputs are assumed ASCII-safe
otherwise, matching every string the program serialises). -/
def jsonEscape (s : String) : String :=
  s.data.foldl
    (fun acc c =>
      acc ++ (if c = '"' then "\\\"" else if c = '\\' then "\\\\"
              else if c = '\n' then "\\n" else if c = '\t' then "\\t"
              else if c = '\r' then "\\r" else c.toString))
    ""

mutual
/-- Python `json.dumps(x)` with default separators. -/
def jsonDumps : Json → String
  | .null => "null"
  | .bool b => if b then "true" else "false"
  | .num n => toString n
  | .str s => "\"" ++ jsonEscape s ++ "\""
  | .arr xs => "[" ++ jsonDumpsList xs ++ "]"
  | .obj fs => "\x7b" ++ jsonDumpsObj fs ++ "\x7d"

/-- `json.dumps` of the elements of a list, comma-separated. -/
def jsonDumpsList : List Json → String
  | [] => ""
  | [x] => jsonDumps x
  | x :: xs => jsonDumps x ++ ", " ++ jsonDumpsList xs

/-- `json.dumps` of the fields of an object, comma-separated. -/
def jsonDumpsObj : List (String × Json) → String
  | [] => ""
  | [(k, v)] => "\"" ++ jsonEscape k ++ "\": " ++ jsonDumps v
  | (k, v) :: fs =>
      "\"" ++ jsonEscape k ++ "\": " ++ jsonDumps v ++ ", " ++ jsonDumpsObj fs
end

/-- Insert thousands separators into a reversed digit list (helper). -/
def groupDigitsAux : List Char → List Char
  | a :: b :: c :: d :: rest => a :: b :: c :: ',' :: groupDigitsAux (d :: rest)
  | l => l

/-- Format a nonnegative digit string with thousands separators. -/
def groupDigits (s : String) : String :=
  ⟨(groupDigitsAux s.data.reverse).reverse⟩

/-- Python `f"{n:,}"` / `f"{n:,.0f}"` for an integer value. -/
def fmtComma (n : Int) : String :=
  if n < 0 then "-" ++ groupDigits (toString (-n)) else groupDigits (toString n)

/-- Python `f"{j:,}"` on a JSON value (ints and bools only; floats are out
of the model, any other type raises ValueError). -/
def pyFmtComma (j : Json) : Except String String := do
  let n ← pyToInt j
  pure (fmtComma n)

/-- Python `f"{j:,.2f}"` on a JSON value, integer case. -/
def pyFmtC2 (j : Json) : Except String String := do
  let n ← pyToInt j
  pure (fmtComma n ++ ".00")

/-- Python `f"{j:,.0f}"` on a JSON value, integer case. -/
def pyFmtC0 (j : Json) : Except String String := do
  let n ← pyToInt j
  pure (fmtComma n)

/-- Python `f"{j:.0f}"` on a JSON value, integer case. -/
def pyFmt0 (j : Json) : Except String String := do
  let n ← pyToInt j
  pure (toString n)

/-- Python `f"{j:.1f}"` on a JSON value, integer case. -/
def pyFmt1 (j : Json) : Except String String := do
  let n ← pyToInt j
  pure (toString n ++ ".0")

/-- Python `f"{j/1000000:.2f}"` on a JSON value: the exact value of `n/10⁶`
rounded half-to-even to two decimal places (integer model of the float
division the source performs). -/
def pyFmtDivM (j : Json) : Except String String := do
  let n ← pyToInt j
  let neg := n < 0
  let m := n.natAbs
  let q := m / 10000
  let r := m % 10000
  let q := if r > 5000 then q + 1 else if r = 5000 then (if q % 2 = 1 then q + 1 else q) else q
  let ip := q / 100
  let fp := q % 100
  pure ((if neg && q ≠ 0 then "-" else "") ++ toString ip ++ "."
        ++ (if fp < 10 then "0" else "") ++ toString fp)

/-- Python `s.lower()`: strings only. -/
def pyLower : Json → Except String String
  | .str s => .ok (strLower s)
  | _ => .error pyErr

/-- Python `s.upper()`: strings only. -/
def pyUpper : Json → Except String String
  | .str s => .ok (strUpper s)
  | _ => .error pyErr

/-- Python `sep.join(items)`: every item must be a string. -/
def pyJoin (sep : String) (items : List Json) : Except String String := do
  let ss ← items.mapM fun j =>
    match j with
    | .str s => Except.ok s
    | _ => Except.error pyErr
  pure (String.intercalate sep ss)

/-- Python slicing `j[:n]` on strings and lists. -/
def pySliceTo (n : Nat) : Json → Except String Json
  | .str s => .ok (.str (s.take n))
  | .arr l => .ok (.arr (l.take n))
  | _ => .error pyErr

/-- Python slicing `j[-n:]` on strings and lists (the whole value when
shorter than `n`). -/
def pySliceLast (n : Nat) : Json → Except String Json
  | .str s => .ok (.str (s.drop (s.length - n)))
  | .arr l => .ok (.arr (l.drop (l.length - n)))
  | _ => .error pyErr

/-- Python `l.append(x)`: only lists have `append`. -/
def pyAppend (l : Json) (x : Json) : Except String Json :=
  match l with
  | .arr xs => .ok (.arr (xs ++ [x]))
  | _ => .error pyErr

/-- Python `int(s)` on the result of a string split: optional sign and
digits (underscore/whitespace refinements of `int` are not exercised by the
program's inputs). -/
def pyParseInt (s : String) : Except String Int :=
  let t := ((s.data.dropWhile Char.isWhitespace).reverse.dropWhile
            Char.isWhitespace).reverse
  let core : Option Int :=
    match t with
    | '-' :: rest => (digitsVal? rest).map fun n => -(n : Int)
    | '+' :: rest => (digitsVal? rest).map fun n => (n : Int)
    | rest => (digitsVal? rest).map fun n => (n : Int)
  match core with
  | some v => .ok v
  | none => .error pyErr

/-- Python list indexing `xs[i]` with negative-index wraparound. -/
def pyListGet (xs : List String) (i : Int) : Except String String :=
  let n : Int := xs.length
  let j := if i < 0 then i + n else i
  if _h : 0 ≤ j ∧ j < n then
    match xs.get? j.toNat with
    | some v => .ok v
    | none => .error pyErr
  else .error pyErr

/-- Python dict assignment `d[k] = v` on a key-unique field list: replace
the existing binding, else append (insertion order, as dicts preserve it). -/
def setKey (fs : List (String × Json)) (k : String) (v : Json) :
    List (String × Json) :=
  if fs.any fun kv => kv.1 == k then
    fs.map fun kv => if kv.1 == k then (k, v) else kv
  else fs ++ [(k, v)]

/-- Python substring test `needle in s` on two Lean strings. -/
def strContains (hay needle : String) : Bool :=
  charsInfix needle.data hay.data

/-! ## Schema classifier and field resolvers (source lines 20-49) -/

/-- Rule 3 and the final default of the classifier (app.py lines 28-33):
structural detection of the intraday-high field in the first account's
first monthly entry.  The classifier (app.py lines 20-33) is translated
statement by statement across `detect_rule3`, `detect_rule2` and
`detect_schema_version`, split at the source's early returns:

```python
schema_version = data.get('report_info', {}).get('schema_version', '')
if schema_version.startswith('5.'): return '5.0'
if data.get('recurring_payments') or data.get('non_bank_financing'): return '5.0'
accounts = data.get('accounts', [])
if accounts:
    monthly = accounts[0].get('monthly_summary', [])
    if monthly and 'highest_intraday' in monthly[0]: return '5.0'
return '4.0'
```
-/
def detect_rule3 (data : Json) : Except String String := do
  let accounts ← pyGet data "accounts" (.arr [])
  if accounts.truthy then do
    let a0 ← pyIndex0 accounts
    let monthly ← pyGet a0 "monthly_summary" (.arr [])
    if monthly.truthy then do
      let m0 ← pyIndex0 monthly
      let c ← pyContains "highest_intraday" m0
      if c then pure "5.0" else pure "4.0"
    else pure "4.0"
  else pure "4.0"

/-- Rules 2-4 of the classifier (app.py lines 26-33), reached when the
version string did not match rule 1. -/
def detect_rule2 (data : Json) : Except String String := do
  let rp ← pyGet data "recurring_payments" .null
  let nb ← pyGet data "non_bank_financing" .null
  if rp.truthy || nb.truthy then pure "5.0" else detect_rule3 data

set_option linter.unusedVariables false in
/-- Source `detect_schema_version(data)` entry point: rule 1 (version
string), then `detect_rule2`. -/
def detect_schema_version (data : Json) : Except String String := do
  let ri ← pyGet data "report_info" (.obj [])
  let schema_version ← pyGet ri "schema_version" (.str "")
  let b ← pyStartsWith schema_version "5."
  if b then pure "5.0" else detect_rule2 data

/-- Source `get_monthly_high(m, schema_version)` (app.py lines 35-39):
`m.get('highest_intraday', m.get('highest', 0))` under the `'5.0'` tag and
`m.get('highest', m.get('highest_intraday', 0))` otherwise.  Python
evaluates the inner `get` (the default) first. -/
def get_monthly_high (m : Json) (schema_version : String) : Except String Json :=
  if schema_version == "5.0" then do
    let inner ← pyGet m "highest" (.num 0)
    pyGet m "highest_intraday" inner
  else do
    let inner ← pyGet m "highest_intraday" (.num 0)
    pyGet m "highest" inner

/-- Source `get_monthly_low(m, schema_version)` (app.py lines 41-45),
symmetric to `get_monthly_high` with the `lowest` field names. -/
def get_monthly_low (m : Json) (schema_version : String) : Except String Json :=
  if schema_version == "5.0" then do
    let inner ← pyGet m "lowest" (.num 0)
    pyGet m "lowest_intraday" inner
  else do
    let inner ← pyGet m "lowest_intraday" (.num 0)
    pyGet m "lowest" inner

/-- Source `get_integrity_max_points(schema_version)` (app.py lines 47-49). -/
def get_integrity_max_points (schema_version : String) : Nat :=
  if schema_version == "5.0" then 23 else 25

/-! ## HTML template text (extracted verbatim from the source f-strings) -/

/-- Account card row (app.py lines 139-152). -/
def accCardTpl (card_cls : String) (bank : String) (badge_cls : String) (cls : String) (acct : String) (credits_s : String) (debits_s : String) (txns_s : String) (closing_cls : String) (closing_s : String) : String :=
  "\n                <div class=\"account-card "
    ++ card_cls
    ++ "\">\n                    <div class=\"account-header\">\n                        <span class=\"bank-name\">"
    ++ bank
    ++ "</span>\n                        <span class=\"badge "
    ++ badge_cls
    ++ "\">"
    ++ cls
    ++ "</span>\n                    </div>\n                    <div class=\"account-number\">A/C: "
    ++ acct
    ++ "</div>\n                    <div class=\"account-metrics\">\n                        <div class=\"metric\"><div class=\"metric-label\">Total Credits</div><div class=\"metric-value credit\">RM "
    ++ credits_s
    ++ "</div></div>\n                        <div class=\"metric\"><div class=\"metric-label\">Total Debits</div><div class=\"metric-value debit\">RM "
    ++ debits_s
    ++ "</div></div>\n                        <div class=\"metric\"><div class=\"metric-label\">Transactions</div><div class=\"metric-value\">"
    ++ txns_s
    ++ "</div></div>\n                        <div class=\"metric\"><div class=\"metric-label\">Closing Balance</div><div class=\"metric-value "
    ++ closing_cls
    ++ "\">RM "
    ++ closing_s
    ++ "</div></div>\n                    </div>\n                </div>"

/-- Monthly summary table row (app.py lines 166-177). -/
def monthlyRowTpl (month : String) (opening_s : String) (credits_s : String) (debits_s : String) (closing_s : String) (high_s : String) (low_s : String) (swing_s : String) (vl : String) (vpct_s : String) (vs : String) : String :=
  "\n                                <tr>\n                                    <td>"
    ++ month
    ++ "</td>\n                                    <td class=\"mono text-right\">"
    ++ opening_s
    ++ "</td>\n                                    <td class=\"mono text-right credit\">"
    ++ credits_s
    ++ "</td>\n                                    <td class=\"mono text-right debit\">"
    ++ debits_s
    ++ "</td>\n                                    <td class=\"mono text-right\">"
    ++ closing_s
    ++ "</td>\n                                    <td class=\"mono text-right\">"
    ++ high_s
    ++ "</td>\n                                    <td class=\"mono text-right\">"
    ++ low_s
    ++ "</td>\n                                    <td class=\"mono text-right\">"
    ++ swing_s
    ++ "</td>\n                                    <td><span class=\"volatility-badge volatility-"
    ++ vl
    ++ "\">"
    ++ vpct_s
    ++ "% "
    ++ vs
    ++ "</span></td>\n                                </tr>"

/-- Per-account monthly summary section (app.py lines 178-189). -/
def monthlyTableTpl (bank : String) (acct : String) (high_label : String) (low_label : String) (rows : String) : String :=
  "\n            <div class=\"section\">\n                <div class=\"section-header\"><h2 class=\"section-title\">📅 Monthly Summary - "
    ++ bank
    ++ " ("
    ++ acct
    ++ ")</h2></div>\n                <div class=\"section-content\">\n                    <div class=\"table-container\">\n                        <table class=\"data-table\">\n                            <thead><tr><th>Month</th><th class=\"text-right\">Opening</th><th class=\"text-right\">Credits</th><th class=\"text-right\">Debits</th><th class=\"text-right\">Closing</th><th class=\"text-right\">"
    ++ high_label
    ++ "</th><th class=\"text-right\">"
    ++ low_label
    ++ "</th><th class=\"text-right\">Swing</th><th>Volatility</th></tr></thead>\n                            <tbody>"
    ++ rows
    ++ "</tbody>\n                        </table>\n                    </div>\n                </div>\n            </div>"

/-- Credit category top-5 transaction row (app.py line 213). -/
def top5RowCrTpl (date : String) (cp : String) (amount_s : String) : String :=
  "<tr><td>"
    ++ date
    ++ "</td><td>"
    ++ cp
    ++ "</td><td class=\"mono text-right credit\">RM "
    ++ amount_s
    ++ "</td></tr>"

/-- Credit category expandable top-5 container (app.py lines 214-216). -/
def top5HtmlCrTpl (idx : String) (rows : String) : String :=
  "<tr id=\"cr_top5_"
    ++ idx
    ++ "\" class=\"top5-row\" style=\"display:none\"><td colspan=\"4\">\n                    <div class=\"top5-container\"><table class=\"data-table mini\"><thead><tr><th>Date</th><th>Counterparty</th><th class=\"text-right\">Amount</th></tr></thead><tbody>"
    ++ rows
    ++ "</tbody></table></div>\n                </td></tr>"

/-- Credit category top-5 toggle button (app.py line 218). -/
def toggleBtnCrTpl (idx : String) : String :=
  "<button class=\"top5-btn\" onclick=\"toggleTop5(\x27cr_top5_"
    ++ idx
    ++ "\x27)\">▶ Top 5</button>"

/-- Credit category table row (app.py lines 219-224). -/
def catRowCrTpl (cat_name : String) (toggle_btn : String) (count_s : String) (amount_s : String) (pct_s : String) (top5_html : String) : String :=
  "<tr>\n                <td>"
    ++ cat_name
    ++ " "
    ++ toggle_btn
    ++ "</td>\n                <td class=\"mono text-right\">"
    ++ count_s
    ++ "</td>\n                <td class=\"mono text-right credit\">RM "
    ++ amount_s
    ++ "</td>\n                <td class=\"mono text-right\">"
    ++ pct_s
    ++ "%</td>\n            </tr>"
    ++ top5_html

/-- Debit category top-5 transaction row (app.py line 238). -/
def top5RowDrTpl (date : String) (cp : String) (amount_s : String) : String :=
  "<tr><td>"
    ++ date
    ++ "</td><td>"
    ++ cp
    ++ "</td><td class=\"mono text-right debit\">RM "
    ++ amount_s
    ++ "</td></tr>"

/-- Debit category expandable top-5 container (app.py lines 239-241). -/
def top5HtmlDrTpl (idx : String) (rows : String) : String :=
  "<tr id=\"dr_top5_"
    ++ idx
    ++ "\" class=\"top5-row\" style=\"display:none\"><td colspan=\"4\">\n                    <div class=\"top5-container\"><table class=\"data-table mini\"><thead><tr><th>Date</th><th>Counterparty</th><th class=\"text-right\">Amount</th></tr></thead><tbody>"
    ++ rows
    ++ "</tbody></table></div>\n                </td></tr>"

/-- Debit category top-5 toggle button (app.py line 243). -/
def toggleBtnDrTpl (idx : String) : String :=
  "<button class=\"top5-btn\" onclick=\"toggleTop5(\x27dr_top5_"
    ++ idx
    ++ "\x27)\">▶ Top 5</button>"

/-- Debit category table row (app.py lines 244-249). -/
def catRowDrTpl (cat_name : String) (toggle_btn : String) (count_s : String) (amount_s : String) (pct_s : String) (top5_html : String) : String :=
  "<tr>\n                <td>"
    ++ cat_name
    ++ " "
    ++ toggle_btn
    ++ "</td>\n                <td class=\"mono text-right\">"
    ++ count_s
    ++ "</td>\n                <td class=\"mono text-right debit\">RM "
    ++ amount_s
    ++ "</td>\n                <td class=\"mono text-right\">"
    ++ pct_s
    ++ "%</td>\n            </tr>"
    ++ top5_html

/-- Observation list item (app.py lines 252-253; positive and concern items share this text). -/
def obsLiTpl (o : String) : String :=
  "<li class=\"observation-item\">"
    ++ o
    ++ "</li>"

/-- Recommendation item (app.py lines 259-266). -/
def recItemTpl (p : String) (priority : String) (category : String) (text : String) : String :=
  "\n                    <div class=\"recommendation-item\">\n                        <span class=\"recommendation-priority "
    ++ p
    ++ "\">"
    ++ priority
    ++ "</span>\n                        <div class=\"recommendation-content\">\n                            <div class=\"recommendation-category\">"
    ++ category
    ++ "</div>\n                            <div class=\"recommendation-text\">"
    ++ text
    ++ "</div>\n                        </div>\n                    </div>"

/-- Round-figure truncation note (app.py line 281). -/
def roundNoteTpl (shown_s : String) (count_s : String) : String :=
  "<div style=\x27color:var(--warn);font-size:0.85rem;margin-top:0.5rem\x27>⚠️ Showing "
    ++ shown_s
    ++ " of "
    ++ count_s
    ++ " transactions</div>"

/-- Kite-flying indicator table row, structured and default formats (app.py lines 296 and 320 share this text). -/
def kiteRowTpl (indicator : String) (status_class : String) (status : String) (points_s : String) (finding : String) : String :=
  "<tr><td>"
    ++ indicator
    ++ "</td><td><span class=\"volatility-badge volatility-"
    ++ status_class
    ++ "\">"
    ++ status
    ++ "</span></td><td class=\"mono text-right\">"
    ++ points_s
    ++ "</td><td>"
    ++ finding
    ++ "</td></tr>"

/-- Kite-flying indicator table row, string-list format (app.py line 305). -/
def kiteRowStrTpl (indicator : String) (status_class : String) (status : String) (finding : String) : String :=
  "<tr><td>"
    ++ indicator
    ++ "</td><td><span class=\"volatility-badge volatility-"
    ++ status_class
    ++ "\">"
    ++ status
    ++ "</span></td><td class=\"mono text-right\">-</td><td>"
    ++ finding
    ++ "</td></tr>"

/-- Default round-amount-patterns finding text (app.py line 312). -/
def roundFindingTpl (count_s : String) : String :=
  count_s
    ++ " round figure transactions"

/-- Synthesized volatility alert line (app.py line 331). -/
def volAlertLineTpl (month_name : String) (bank : String) (vpct_s : String) (vl : String) : String :=
  month_name
    ++ " ("
    ++ bank
    ++ "): "
    ++ vpct_s
    ++ "% volatility - "
    ++ vl

/-- Volatility alert list item (app.py line 332). -/
def volAlertLiTpl (a : String) : String :=
  "<li>"
    ++ a
    ++ "</li>"

/-- Normalized month label for the volatility chart (app.py line 370). -/
def volLabelTpl (mon : String) (year : String) : String :=
  mon
    ++ " "
    ++ year

/-- Integrity check table row (app.py lines 393-401). -/
def intRowTpl (id : String) (name : String) (tier_color : String) (tier : String) (status_color : String) (status : String) (weight_s : String) (points_s : String) (details : String) : String :=
  "<tr>\n            <td class=\"mono\">"
    ++ id
    ++ "</td>\n            <td>"
    ++ name
    ++ "</td>\n            <td><span class=\"volatility-badge\" style=\"background:var(--"
    ++ tier_color
    ++ "-dim);color:var(--"
    ++ tier_color
    ++ ")\">"
    ++ tier
    ++ "</span></td>\n            <td><span class=\"volatility-badge\" style=\"background:var(--"
    ++ status_color
    ++ "-dim);color:var(--"
    ++ status_color
    ++ ")\">"
    ++ status
    ++ "</span></td>\n            <td class=\"mono text-right\">"
    ++ weight_s
    ++ "</td>\n            <td class=\"mono text-right\">"
    ++ points_s
    ++ "</td>\n            <td style=\"color:var(--text-soft)\">"
    ++ details
    ++ "</td>\n        </tr>"

/-- Recurring payment table row (app.py lines 470-476). -/
def recRowTpl (ptype : String) (expected_s : String) (found_s : String) (missing : String) (status_class : String) (status : String) : String :=
  "<tr>\n                <td>"
    ++ ptype
    ++ "</td>\n                <td class=\"mono text-right\">"
    ++ expected_s
    ++ "</td>\n                <td class=\"mono text-right\">"
    ++ found_s
    ++ "</td>\n                <td style=\"font-size:0.85rem;color:var(--text-soft)\">"
    ++ missing
    ++ "</td>\n                <td><span class=\"volatility-badge volatility-"
    ++ status_class
    ++ "\">"
    ++ status
    ++ "</span></td>\n            </tr>"

/-- Recurring payment alert list item (app.py line 482). -/
def recAlertLiTpl (a : String) : String :=
  "<li style=\"color:var(--danger)\">"
    ++ a
    ++ "</li>"

/-- Recurring payments tab (app.py lines 504-525). -/
def recurringTabTpl (compliance_color : String) (compliance : String) (risk_color : String) (risk : String) (rec_rows : String) (rec_alerts_html : String) : String :=
  "\n        <div id=\"tab-recurring\" class=\"tab-content\">\n            <div class=\"section\">\n                <div class=\"section-header\"><h2 class=\"section-title\">📋 Recurring Payments Compliance</h2></div>\n                <div class=\"section-content\">\n                    <div class=\"summary-cards\">\n                        <div class=\"summary-card\"><div class=\"value\" style=\"color:var(--"
    ++ compliance_color
    ++ ")\">"
    ++ compliance
    ++ "</div><div class=\"label\">Statutory Compliance</div></div>\n                        <div class=\"summary-card\"><div class=\"value\" style=\"color:var(--"
    ++ risk_color
    ++ ")\">"
    ++ risk
    ++ "</div><div class=\"label\">Risk Level</div></div>\n                    </div>\n                    <div class=\"table-container\">\n                        <table class=\"data-table\">\n                            <thead><tr><th>Payment Type</th><th class=\"text-right\">Expected</th><th class=\"text-right\">Found</th><th>Missing Months</th><th>Status</th></tr></thead>\n                            <tbody>"
    ++ rec_rows
    ++ "</tbody>\n                        </table>\n                    </div>\n                    <div class=\"flag-card\" style=\"margin-top:1rem\">\n                        <div class=\"flag-header\"><span class=\"flag-title\">⚠️ Alerts</span></div>\n                        <ul style=\"color:var(--text-soft);padding:1rem 1.5rem\">"
    ++ rec_alerts_html
    ++ "</ul>\n                    </div>\n                </div>\n            </div>\n        </div>"

/-- Non-bank financing source row (app.py lines 561-567). -/
def nbSourceRowTpl (source_type : String) (count_s : String) (inflow_s : String) (repay_s : String) (status_class : String) (status : String) : String :=
  "<tr>\n                <td>"
    ++ source_type
    ++ "</td>\n                <td class=\"mono text-right\">"
    ++ count_s
    ++ "</td>\n                <td class=\"mono text-right credit\">RM "
    ++ inflow_s
    ++ "</td>\n                <td class=\"mono text-right debit\">RM "
    ++ repay_s
    ++ "</td>\n                <td><span class=\"volatility-badge\" style=\"background:var(--"
    ++ status_class
    ++ "-dim);color:var(--"
    ++ status_class
    ++ ")\">"
    ++ status
    ++ "</span></td>\n            </tr>"

/-- Suspected unlicensed lending row (app.py lines 572-577). -/
def nbSuspRowTpl (date : String) (cp : String) (amount_s : String) (reason : String) : String :=
  "<tr>\n                <td>"
    ++ date
    ++ "</td>\n                <td>"
    ++ cp
    ++ "</td>\n                <td class=\"mono text-right credit\">RM "
    ++ amount_s
    ++ "</td>\n                <td>"
    ++ reason
    ++ "</td>\n            </tr>"

/-- Suspected unlicensed lending section (app.py lines 581-587). -/
def nbSuspSectionTpl (count_s : String) (rows : String) : String :=
  "\n                    <div class=\"flag-card\" style=\"margin-top:1rem\">\n                        <div class=\"flag-header\" onclick=\"toggleDetails(\x27suspectedDetails\x27)\"><span class=\"flag-title\">⚠️ Suspected Unlicensed Lending</span><span class=\"flag-count\" style=\"background:var(--danger-dim);color:var(--danger)\">"
    ++ count_s
    ++ " found</span></div>\n                        <div id=\"suspectedDetails\" class=\"flag-details show\">\n                            <table class=\"data-table\"><thead><tr><th>Date</th><th>Counterparty</th><th class=\"text-right\">Amount</th><th>Reason</th></tr></thead><tbody>"
    ++ rows
    ++ "</tbody></table>\n                        </div>\n                    </div>"

/-- Non-bank financing tab (app.py lines 589-610). -/
def nonbankTabTpl (risk_color : String) (nb_risk : String) (source_rows_c : String) (suspected_section : String) (summary_div : String) : String :=
  "\n        <div id=\"tab-nonbank\" class=\"tab-content\">\n            <div class=\"section\">\n                <div class=\"section-header\"><h2 class=\"section-title\">🏦 Non-Bank Financing Detection</h2></div>\n                <div class=\"section-content\">\n                    <div class=\"summary-cards\">\n                        <div class=\"summary-card\"><div class=\"value\" style=\"color:var(--"
    ++ risk_color
    ++ ")\">"
    ++ nb_risk
    ++ "</div><div class=\"label\">Risk Level</div></div>\n                    </div>\n                    <div class=\"flag-card\">\n                        <div class=\"flag-header\"><span class=\"flag-title\">📊 Financing Sources</span></div>\n                        <div class=\"table-container\" style=\"margin-top:1rem\">\n                            <table class=\"data-table\">\n                                <thead><tr><th>Source Type</th><th class=\"text-right\">Count</th><th class=\"text-right\">Total Inflow</th><th class=\"text-right\">Repayments</th><th>Status</th></tr></thead>\n                                <tbody>"
    ++ source_rows_c
    ++ "</tbody>\n                            </table>\n                        </div>\n                    </div>\n                    "
    ++ suspected_section
    ++ "\n                    "
    ++ summary_div
    ++ "\n                </div>\n            </div>\n        </div>"

/-- Non-bank financing summary note (app.py line 607). -/
def nbSummaryDivTpl (nb_summary : String) : String :=
  "<div style=\"margin-top:1rem;padding:1rem;background:var(--bg-alt);border-radius:8px;color:var(--text-soft)\">"
    ++ nb_summary
    ++ "</div>"

/-- Counterparty top-payer row (app.py lines 625-631). -/
def cpPayerRowTpl (rank : String) (pname : String) (is_related : String) (count_s : String) (amount_s : String) (pct_s : String) : String :=
  "<tr>\n                <td>"
    ++ rank
    ++ "</td>\n                <td>"
    ++ pname
    ++ " "
    ++ is_related
    ++ "</td>\n                <td class=\"mono text-right\">"
    ++ count_s
    ++ "</td>\n                <td class=\"mono text-right credit\">RM "
    ++ amount_s
    ++ "</td>\n                <td class=\"mono text-right\">"
    ++ pct_s
    ++ "%</td>\n            </tr>"

/-- Counterparty top-payee row (app.py lines 636-642). -/
def cpPayeeRowTpl (rank : String) (pname : String) (is_related : String) (count_s : String) (amount_s : String) (pct_s : String) : String :=
  "<tr>\n                <td>"
    ++ rank
    ++ "</td>\n                <td>"
    ++ pname
    ++ " "
    ++ is_related
    ++ "</td>\n                <td class=\"mono text-right\">"
    ++ count_s
    ++ "</td>\n                <td class=\"mono text-right debit\">RM "
    ++ amount_s
    ++ "</td>\n                <td class=\"mono text-right\">"
    ++ pct_s
    ++ "%</td>\n            </tr>"

/-- Both-sides counterparty row (app.py lines 653-657). -/
def cpBothRowTpl (pname : String) (credit_s : String) (debit_s : String) : String :=
  "<tr>\n                <td>"
    ++ pname
    ++ "</td>\n                <td class=\"mono text-right credit\">RM "
    ++ credit_s
    ++ "</td>\n                <td class=\"mono text-right debit\">RM "
    ++ debit_s
    ++ "</td>\n            </tr>"

/-- Both-sides counterparty section (app.py lines 661-667). -/
def cpBothSectionTpl (count_s : String) (rows : String) : String :=
  "\n                    <div class=\"flag-card\" style=\"margin-top:1.5rem\">\n                        <div class=\"flag-header\"><span class=\"flag-title\">⚠️ Parties Appearing Both Sides</span><span class=\"flag-count\">"
    ++ count_s
    ++ " found</span></div>\n                        <div class=\"table-container\" style=\"padding:1rem\">\n                            <table class=\"data-table\"><thead><tr><th>Party</th><th class=\"text-right\">Credits</th><th class=\"text-right\">Debits</th></tr></thead><tbody>"
    ++ rows
    ++ "</tbody></table>\n                        </div>\n                    </div>"

/-- Counterparty analysis tab (app.py lines 669-699). -/
def counterpartyTabTpl (conc_color : String) (conc_risk : String) (top1_payer_s : String) (top3_payers_s : String) (top1_payee_s : String) (payer_rows_c : String) (payee_rows_c : String) (both_section : String) : String :=
  "\n        <div id=\"tab-counterparties\" class=\"tab-content\">\n            <div class=\"section\">\n                <div class=\"section-header\"><h2 class=\"section-title\">👥 Counterparty Analysis</h2></div>\n                <div class=\"section-content\">\n                    <div class=\"summary-cards\">\n                        <div class=\"summary-card\"><div class=\"value\" style=\"color:var(--"
    ++ conc_color
    ++ ")\">"
    ++ conc_risk
    ++ "</div><div class=\"label\">Concentration Risk</div></div>\n                        <div class=\"summary-card\"><div class=\"value\">"
    ++ top1_payer_s
    ++ "%</div><div class=\"label\">Top 1 Payer</div></div>\n                        <div class=\"summary-card\"><div class=\"value\">"
    ++ top3_payers_s
    ++ "%</div><div class=\"label\">Top 3 Payers</div></div>\n                        <div class=\"summary-card\"><div class=\"value\">"
    ++ top1_payee_s
    ++ "%</div><div class=\"label\">Top 1 Payee</div></div>\n                    </div>\n                    <div style=\"display:grid;grid-template-columns:repeat(2,1fr);gap:2rem;margin-top:1.5rem\">\n                        <div>\n                            <h4 style=\"color:var(--accent);margin-bottom:1rem\">💰 Top Income Sources (Payers)</h4>\n                            <table class=\"data-table\">\n                                <thead><tr><th>#</th><th>Party</th><th class=\"text-right\">Count</th><th class=\"text-right\">Amount</th><th class=\"text-right\">%</th></tr></thead>\n                                <tbody>"
    ++ payer_rows_c
    ++ "</tbody>\n                            </table>\n                        </div>\n                        <div>\n                            <h4 style=\"color:var(--danger);margin-bottom:1rem\">💸 Top Payment Destinations (Payees)</h4>\n                            <table class=\"data-table\">\n                                <thead><tr><th>#</th><th>Party</th><th class=\"text-right\">Count</th><th class=\"text-right\">Amount</th><th class=\"text-right\">%</th></tr></thead>\n                                <tbody>"
    ++ payee_rows_c
    ++ "</tbody>\n                            </table>\n                        </div>\n                    </div>\n                    "
    ++ both_section
    ++ "\n                </div>\n            </div>\n        </div>"

/-- Returned cheque row (app.py line 705). -/
def retRowTpl (date : String) (desc : String) (amount_s : String) : String :=
  "<tr><td>"
    ++ date
    ++ "</td><td>"
    ++ desc
    ++ "</td><td class=\"mono text-right debit\">RM "
    ++ amount_s
    ++ "</td></tr>"

/-- Returned cheques flag card (app.py lines 706-716). -/
def returnedSectionTpl (count_s : String) (assessment : String) (total_s : String) (rows : String) : String :=
  "\n                    <div class=\"flag-card\">\n                        <div class=\"flag-header\" onclick=\"toggleDetails(\x27returnedDetails\x27)\"><span class=\"flag-title\">❌ Returned Cheques</span><span class=\"flag-count\" style=\"background:var(--danger-dim);color:var(--danger)\">"
    ++ count_s
    ++ " found - "
    ++ assessment
    ++ "</span></div>\n                        <div id=\"returnedDetails\" class=\"flag-details show\">\n                            <div style=\"margin-bottom:0.75rem;color:var(--text-soft)\">Total Value: <span class=\"mono debit\">RM "
    ++ total_s
    ++ "</span></div>\n                            <table class=\"data-table\">\n                                <thead><tr><th>Date</th><th>Description</th><th class=\"text-right\">Amount</th></tr></thead>\n                                <tbody>"
    ++ rows
    ++ "</tbody>\n                            </table>\n                        </div>\n                    </div>"

/-- Inter-account transfer row (app.py lines 731-736). -/
def interRowTpl (date : String) (from_s : String) (to_s : String) (amount_s : String) : String :=
  "<tr>\n            <td>"
    ++ date
    ++ "</td>\n            <td>"
    ++ from_s
    ++ "</td>\n            <td>"
    ++ to_s
    ++ "</td>\n            <td class=\"mono text-right\">RM "
    ++ amount_s
    ++ "</td>\n        </tr>"

/-- Inter-account transfers section (app.py lines 741-751). -/
def interSectionTpl (count_s : String) (total_s : String) (rows : String) : String :=
  "\n                    <div class=\"section\" style=\"margin-top:1.5rem\">\n                        <div class=\"section-header\" onclick=\"toggleSection(\x27interTransfers\x27)\"><h2 class=\"section-title\">🔄 Inter-Account Transfers</h2></div>\n                        <div id=\"interTransfers\" class=\"section-content collapsed\">\n                            <div class=\"summary-cards\">\n                                <div class=\"summary-card\"><div class=\"value\">"
    ++ count_s
    ++ "</div><div class=\"label\">Transfers Detected</div></div>\n                                <div class=\"summary-card\"><div class=\"value\">RM "
    ++ total_s
    ++ "</div><div class=\"label\">Total Amount</div></div>\n                            </div>\n                            <table class=\"data-table\"><thead><tr><th>Date</th><th>From Account</th><th>To Account</th><th class=\"text-right\">Amount</th></tr></thead><tbody>"
    ++ rows
    ++ "</tbody></table>\n                        </div>\n                    </div>"

/-- The full HTML document template of app.py lines 759-1183, part before the generated-at slot. -/
def mainTplA (company : String) (schema_version : String) (period_start : String) (period_end : String) (total_months_s : String) (accounts_len_s : String) (total_txns_s : String) (grossM_s : String) (counterparty_nav : String) (recurring_nav : String) (nonbank_nav : String) (int_class : String) (int_score_s : String) (int_rating : String) (kite_class : String) (kite_score_s : String) (kite_level : String) (vol_class : String) (vol_index_s : String) (vol_level : String) (round_count_s : String) (acc_cards : String) (pos_obs : String) (con_obs : String) (monthly_tables : String) (gross_credits_s : String) (gross_debits_s : String) (gross_nf_cls : String) (gross_nf_s : String) (business_credits_s : String) (business_debits_s : String) (business_nf_cls : String) (business_nf_s : String) (exc_cr_inter_s : String) (exc_cr_related_s : String) (exc_cr_reversals_s : String) (exc_cr_loan_s : String) (exc_cr_interest_s : String) (exc_cr_total_s : String) (exc_dr_inter_s : String) (exc_dr_related_s : String) (exc_dr_returned_s : String) (exc_dr_total_s : String) (inter_transfers_section : String) (categories_note : String) (credits_rows : String) (debits_rows : String) (counterparty_tab : String) (vol_sum_color : String) (vol_alerts_len_s : String) (vol_method_note : String) (vol_alerts_html : String) (kite_sum_color : String) (returned_color : String) (returned_count_s : String) (kite_rows : String) (returned_cheques_html : String) (int_sum_color : String) (int_points_s : String) (max_points_s : String) (int_rows : String) (rp_credit_s : String) (rp_debit_s : String) (rp_net_cls : String) (rp_net_s : String) (related_len_s : String) (rp_parties : String) (recurring_tab : String) (nonbank_tab : String) (rec_html_c : String) : String :=
  "<!DOCTYPE html>\n<html lang=\"en\" data-theme=\"light\">\n<head>\n    <meta charset=\"UTF-8\">\n    <meta name=\"viewport\" content=\"width=device-width, initial-scale=1.0\">\n    <title>Bank Statement Analysis v5.0 - "
    ++ company
    ++ "</title>\n    <link href=\"https://fonts.googleapis.com/css2?family=JetBrains+Mono:wght@400;500;600;700&family=Inter:wght@300;400;500;600;700&display=swap\" rel=\"stylesheet\">\n    <script src=\"https://cdn.plot.ly/plotly-2.27.0.min.js\"></script>\n    <style>\n        :root, [data-theme=\"dark\"] \x7b\n            --bg: #0a0e17; --bg-alt: #0f1520; --card-bg: #141b2b; --card-hover: #1a2235;\n            --border-subtle: #1e2a42; --border-accent: #2d3f5f;\n            --accent: #22c55e; --accent-dim: rgba(34, 197, 94, 0.15);\n            --danger: #ef4444; --danger-dim: rgba(239, 68, 68, 0.15);\n            --warn: #f59e0b; --warn-dim: rgba(245, 158, 11, 0.15);\n            --info: #3b82f6; --info-dim: rgba(59, 130, 246, 0.15);\n            --purple: #8b5cf6; --purple-dim: rgba(139, 92, 246, 0.15);\n            --text-main: #e8eaed; --text-soft: #9ca3af; --text-muted: #6b7280;\n        \x7d\n        [data-theme=\"light\"] \x7b\n            --bg: #f8fafc; --bg-alt: #ffffff; --card-bg: #ffffff; --card-hover: #f1f5f9;\n            --border-subtle: #e2e8f0; --border-accent: #cbd5e1;\n            --accent: #16a34a; --accent-dim: rgba(22, 163, 74, 0.1);\n            --danger: #dc2626; --danger-dim: rgba(220, 38, 38, 0.1);\n            --warn: #d97706; --warn-dim: rgba(217, 119, 6, 0.1);\n            --info: #2563eb; --info-dim: rgba(37, 99, 235, 0.1);\n            --purple: #7c3aed; --purple-dim: rgba(124, 58, 237, 0.1);\n            --text-main: #1e293b; --text-soft: #475569; --text-muted: #94a3b8;\n        \x7d\n        * \x7b margin:0; padding:0; box-sizing:border-box; \x7d\n        body \x7b font-family: \x27Inter\x27, sans-serif; background: var(--bg); color: var(--text-main); line-height: 1.6; \x7d\n        .container \x7b max-width: 1400px; margin: 0 auto; padding: 2rem; \x7d\n        .header \x7b background: linear-gradient(135deg, var(--card-bg) 0%, var(--bg-alt) 100%); border: 1px solid var(--border-subtle); border-radius: 16px; padding: 2rem; margin-bottom: 2rem; position: relative; overflow: hidden; \x7d\n        .header::before \x7b content: \x27\x27; position: absolute; top: 0; left: 0; right: 0; height: 4px; background: linear-gradient(90deg, #22c55e, #3b82f6, #8b5cf6); \x7d\n        .header-content \x7b display: flex; justify-content: space-between; align-items: flex-start; flex-wrap: wrap; gap: 1.5rem; \x7d\n        .company-info h1 \x7b font-size: 1.75rem; font-weight: 700; margin-bottom: 0.5rem; \x7d\n        .company-info .period \x7b color: var(--text-soft); font-size: 0.9rem; \x7d\n        .header-stats \x7b display: flex; gap: 2rem; \x7d\n        .header-stat \x7b text-align: center; \x7d\n        .header-stat .value \x7b font-size: 1.5rem; font-weight: 700; color: var(--accent); \x7d\n        .header-stat .label \x7b font-size: 0.75rem; color: var(--text-muted); text-transform: uppercase; \x7d\n        .version-badge \x7b display: inline-block; padding: 0.25rem 0.75rem; background: var(--purple-dim); color: var(--purple); border-radius: 20px; font-size: 0.75rem; font-weight: 600; margin-left: 1rem; \x7d\n        .nav-tabs \x7b display: flex; gap: 0.5rem; margin-bottom: 2rem; flex-wrap: wrap; background: var(--card-bg); padding: 0.5rem; border-radius: 12px; border: 1px solid var(--border-subtle); \x7d\n        .nav-tab \x7b padding: 0.75rem 1.25rem; border: none; background: transparent; color: var(--text-soft); cursor: pointer; border-radius: 8px; font-size: 0.85rem; font-weight: 500; transition: all 0.2s; \x7d\n        .nav-tab:hover \x7b background: var(--card-hover); color: var(--text-main); \x7d\n        .nav-tab.active \x7b background: var(--accent); color: #fff; \x7d\n        .tab-content \x7b display: none; \x7d\n        .tab-content.active \x7b display: block; \x7d\n        .scores-grid \x7b display: grid; grid-template-columns: repeat(auto-fit, minmax(200px, 1fr)); gap: 1rem; margin-bottom: 2rem; \x7d\n        .score-card \x7b background: var(--card-bg); border: 1px solid var(--border-subtle); border-radius: 12px; padding: 1.5rem; text-align: center; cursor: pointer; transition: all 0.2s; \x7d\n        .score-card:hover \x7b transform: translateY(-2px); border-color: var(--border-accent); \x7d\n        .score-card.excellent \x7b border-left: 4px solid var(--accent); \x7d\n        .score-card.good \x7b border-left: 4px solid var(--info); \x7d\n        .score-card.warning \x7b border-left: 4px solid var(--warn); \x7d\n        .score-card.danger \x7b border-left: 4px solid var(--danger); \x7d\n        .score-value \x7b font-size: 2.5rem; font-weight: 700; font-family: \x27JetBrains Mono\x27, monospace; \x7d\n        .score-label \x7b font-size: 0.85rem; color: var(--text-soft); margin: 0.5rem 0; \x7d\n        .score-rating \x7b font-size: 0.75rem; font-weight: 600; text-transform: uppercase; \x7d\n        .score-card.excellent .score-value, .score-card.excellent .score-rating \x7b color: var(--accent); \x7d\n        .score-card.good .score-value, .score-card.good .score-rating \x7b color: var(--info); \x7d\n        .score-card.warning .score-value, .score-card.warning .score-rating \x7b color: var(--warn); \x7d\n        .score-card.danger .score-value, .score-card.danger .score-rating \x7b color: var(--danger); \x7d\n        .accounts-grid \x7b display: grid; grid-template-columns: repeat(auto-fit, minmax(300px, 1fr)); gap: 1rem; margin-bottom: 2rem; \x7d\n        .account-card \x7b background: var(--card-bg); border: 1px solid var(--border-subtle); border-radius: 12px; padding: 1.25rem; \x7d\n        .account-card.primary \x7b border-left: 4px solid var(--accent); \x7d\n        .account-card.secondary \x7b border-left: 4px solid var(--info); \x7d\n        .account-header \x7b display: flex; justify-content: space-between; align-items: center; margin-bottom: 0.75rem; \x7d\n        .bank-name \x7b font-weight: 600; font-size: 0.95rem; \x7d\n        .badge \x7b padding: 0.25rem 0.5rem; border-radius: 4px; font-size: 0.7rem; font-weight: 600; \x7d\n        .badge-primary \x7b background: var(--accent-dim); color: var(--accent); \x7d\n        .badge-secondary \x7b background: var(--info-dim); color: var(--info); \x7d\n        .account-number \x7b font-family: \x27JetBrains Mono\x27, monospace; font-size: 0.85rem; color: var(--text-soft); margin-bottom: 1rem; \x7d\n        .account-metrics \x7b display: grid; grid-template-columns: repeat(2, 1fr); gap: 0.75rem; \x7d\n        .metric \x7b background: var(--bg-alt); padding: 0.75rem; border-radius: 8px; \x7d\n        .metric-label \x7b font-size: 0.7rem; color: var(--text-muted); text-transform: uppercase; \x7d\n        .metric-value \x7b font-family: \x27JetBrains Mono\x27, monospace; font-size: 0.9rem; font-weight: 600; \x7d\n        .metric-value.credit \x7b color: var(--accent); \x7d\n        .metric-value.debit \x7b color: var(--danger); \x7d\n        .section \x7b background: var(--card-bg); border: 1px solid var(--border-subtle); border-radius: 12px; margin-bottom: 1.5rem; overflow: hidden; \x7d\n        .section-header \x7b display: flex; justify-content: space-between; align-items: center; padding: 1rem 1.5rem; background: var(--bg-alt); border-bottom: 1px solid var(--border-subtle); cursor: pointer; \x7d\n        .section-title \x7b font-size: 1rem; font-weight: 600; \x7d\n        .section-toggle \x7b background: none; border: none; color: var(--text-soft); cursor: pointer; font-size: 0.85rem; \x7d\n        .section-content \x7b padding: 1.5rem; \x7d\n        .section-content.collapsed \x7b display: none; \x7d\n        .table-container \x7b overflow-x: auto; \x7d\n        .data-table \x7b width: 100%; border-collapse: collapse; font-size: 0.85rem; \x7d\n        .data-table th, .data-table td \x7b padding: 0.75rem 1rem; text-align: left; border-bottom: 1px solid var(--border-subtle); \x7d\n        .data-table th \x7b background: var(--bg-alt); color: var(--text-soft); font-weight: 600; font-size: 0.75rem; text-transform: uppercase; \x7d\n        .data-table tr:hover \x7b background: var(--card-hover); \x7d\n        .data-table.mini th, .data-table.mini td \x7b padding: 0.5rem 0.75rem; font-size: 0.8rem; \x7d\n        .text-right \x7b text-align: right; \x7d\n        .mono \x7b font-family: \x27JetBrains Mono\x27, monospace; \x7d\n        .credit \x7b color: var(--accent); \x7d\n        .debit \x7b color: var(--danger); \x7d\n        .volatility-badge \x7b display: inline-block; padding: 0.25rem 0.5rem; border-radius: 4px; font-size: 0.7rem; font-weight: 600; \x7d\n        .volatility-LOW \x7b background: var(--accent-dim); color: var(--accent); \x7d\n        .volatility-MODERATE \x7b background: var(--warn-dim); color: var(--warn); \x7d\n        .volatility-HIGH \x7b background: var(--warn-dim); color: var(--warn); \x7d\n        .volatility-EXTREME \x7b background: var(--danger-dim); color: var(--danger); \x7d\n        .summary-cards \x7b display: grid; grid-template-columns: repeat(auto-fit, minmax(150px, 1fr)); gap: 1rem; margin-bottom: 1.5rem; \x7d\n        .summary-card \x7b background: var(--bg-alt); padding: 1.25rem; border-radius: 8px; text-align: center; \x7d\n        .summary-card .value \x7b font-size: 1.5rem; font-weight: 700; font-family: \x27JetBrains Mono\x27, monospace; \x7d\n        .summary-card .label \x7b font-size: 0.75rem; color: var(--text-muted); margin-top: 0.25rem; \x7d\n        .flag-card \x7b background: var(--bg-alt); border-radius: 8px; margin-bottom: 1rem; overflow: hidden; \x7d\n        .flag-header \x7b display: flex; justify-content: space-between; align-items: center; padding: 1rem; cursor: pointer; \x7d\n        .flag-title \x7b font-weight: 600; font-size: 0.9rem; \x7d\n        .flag-count \x7b background: var(--warn-dim); color: var(--warn); padding: 0.25rem 0.75rem; border-radius: 20px; font-size: 0.75rem; font-weight: 600; \x7d\n        .flag-details \x7b display: none; padding: 0 1rem 1rem; \x7d\n        .flag-details.show \x7b display: block; \x7d\n        .turnover-grid \x7b display: grid; grid-template-columns: repeat(auto-fit, minmax(280px, 1fr)); gap: 1.5rem; \x7d\n        .turnover-column \x7b background: var(--bg-alt); padding: 1.5rem; border-radius: 8px; \x7d\n        .turnover-column h3 \x7b font-size: 0.9rem; margin-bottom: 1rem; color: var(--text-soft); \x7d\n        .turnover-column.business \x7b border: 1px solid var(--purple); \x7d\n        .turnover-column.business h3 \x7b color: var(--purple); \x7d\n        .turnover-row \x7b display: flex; justify-content: space-between; padding: 0.5rem 0; border-bottom: 1px solid var(--border-subtle); \x7d\n        .observations-grid \x7b display: grid; grid-template-columns: repeat(2, 1fr); gap: 1.5rem; \x7d\n        .observation-list \x7b list-style: none; padding: 0; \x7d\n        .observation-item \x7b padding: 0.5rem 0; padding-left: 1.5rem; position: relative; color: var(--text-soft); \x7d\n        .observation-item::before \x7b content: \x27•\x27; position: absolute; left: 0; \x7d\n        .positive .observation-item::before \x7b color: var(--accent); \x7d\n        .concerns .observation-item::before \x7b color: var(--danger); \x7d\n        .recommendation-item \x7b display: flex; gap: 1rem; padding: 1rem; background: var(--bg-alt); border-radius: 8px; margin-bottom: 0.75rem; \x7d\n        .recommendation-priority \x7b padding: 0.25rem 0.75rem; border-radius: 4px; font-size: 0.75rem; font-weight: 600; height: fit-content; \x7d\n        .recommendation-priority.high \x7b background: var(--danger-dim); color: var(--danger); \x7d\n        .recommendation-priority.medium \x7b background: var(--warn-dim); color: var(--warn); \x7d\n        .recommendation-priority.low \x7b background: var(--info-dim); color: var(--info); \x7d\n        .recommendation-category \x7b font-size: 0.75rem; color: var(--text-muted); margin-bottom: 0.25rem; \x7d\n        .recommendation-text \x7b font-size: 0.9rem; \x7d\n        .chart-container \x7b background: var(--bg-alt); border-radius: 8px; padding: 1rem; \x7d\n        .chart-title \x7b font-size: 0.85rem; font-weight: 600; margin-bottom: 0.75rem; color: var(--text-soft); \x7d\n        .top5-btn \x7b background: var(--info-dim); color: var(--info); border: none; padding: 0.2rem 0.5rem; border-radius: 4px; font-size: 0.7rem; cursor: pointer; margin-left: 0.5rem; \x7d\n        .top5-btn:hover \x7b background: var(--info); color: #fff; \x7d\n        .top5-container \x7b background: var(--card-hover); padding: 1rem; border-radius: 8px; margin: 0.5rem 0; \x7d\n        .top5-row td \x7b background: var(--bg-alt); \x7d\n        .modal-overlay \x7b position: fixed; top: 0; left: 0; right: 0; bottom: 0; background: rgba(0,0,0,0.8); display: none; justify-content: center; align-items: center; z-index: 1000; padding: 2rem; \x7d\n        .modal-overlay.show \x7b display: flex; \x7d\n        .modal \x7b background: var(--card-bg); border-radius: 16px; max-width: 900px; width: 100%; max-height: 80vh; overflow: hidden; \x7d\n        .modal-header \x7b display: flex; justify-content: space-between; align-items: center; padding: 1.25rem 1.5rem; border-bottom: 1px solid var(--border-subtle); \x7d\n        .modal-title \x7b font-size: 1.1rem; font-weight: 600; \x7d\n        .modal-close \x7b background: none; border: none; font-size: 1.5rem; color: var(--text-soft); cursor: pointer; \x7d\n        .modal-body \x7b padding: 1.5rem; max-height: calc(80vh - 70px); overflow-y: auto; \x7d\n        .footer \x7b text-align: center; padding: 2rem; color: var(--text-muted); font-size: 0.85rem; \x7d\n        .theme-toggle \x7b position: fixed; top: 20px; right: 20px; background: var(--card-bg); border: 1px solid var(--border-subtle); border-radius: 8px; padding: 0.5rem 1rem; color: var(--text-main); cursor: pointer; font-size: 0.85rem; z-index: 100; \x7d\n        .theme-toggle:hover \x7b background: var(--card-hover); \x7d\n        @media (max-width: 768px) \x7b\n            .container \x7b padding: 1rem; \x7d\n            .header-content \x7b flex-direction: column; \x7d\n            .observations-grid \x7b grid-template-columns: 1fr; \x7d\n            .theme-toggle \x7b top: auto; bottom: 20px; \x7d\n        \x7d\n    </style>\n</head>\n<body>\n    <button class=\"theme-toggle\" onclick=\"toggleTheme()\">🌙 Dark</button>\n    \n    <div class=\"container\">\n        <div class=\"header\">\n            <div class=\"header-content\">\n                <div class=\"company-info\">\n                    <h1>"
    ++ company
    ++ " <span class=\"version-badge\">Schema v"
    ++ schema_version
    ++ "</span></h1>\n                    <p class=\"period\">Bank Statement Analysis v5.0 | "
    ++ period_start
    ++ " - "
    ++ period_end
    ++ " | "
    ++ total_months_s
    ++ " Months</p>\n                </div>\n                <div class=\"header-stats\">\n                    <div class=\"header-stat\"><div class=\"value\">"
    ++ accounts_len_s
    ++ "</div><div class=\"label\">Accounts</div></div>\n                    <div class=\"header-stat\"><div class=\"value\">"
    ++ total_txns_s
    ++ "</div><div class=\"label\">Transactions</div></div>\n                    <div class=\"header-stat\"><div class=\"value\">RM "
    ++ grossM_s
    ++ "M</div><div class=\"label\">Total Credits</div></div>\n                </div>\n            </div>\n        </div>\n\n        <div class=\"nav-tabs\">\n            <button class=\"nav-tab active\" data-tab=\"overview\" onclick=\"showTab(\x27overview\x27)\">📊 Overview</button>\n            <button class=\"nav-tab\" data-tab=\"accounts\" onclick=\"showTab(\x27accounts\x27)\">🏦 Accounts</button>\n            <button class=\"nav-tab\" data-tab=\"turnover\" onclick=\"showTab(\x27turnover\x27)\">💰 Turnover</button>\n            <button class=\"nav-tab\" data-tab=\"categories\" onclick=\"showTab(\x27categories\x27)\">📁 Categories</button>\n            "
    ++ counterparty_nav
    ++ "\n            <button class=\"nav-tab\" data-tab=\"volatility\" onclick=\"showTab(\x27volatility\x27)\">📈 Volatility</button>\n            <button class=\"nav-tab\" data-tab=\"flags\" onclick=\"showTab(\x27flags\x27)\">🚩 Flags</button>\n            <button class=\"nav-tab\" data-tab=\"integrity\" onclick=\"showTab(\x27integrity\x27)\">✓ Integrity</button>\n            <button class=\"nav-tab\" data-tab=\"related\" onclick=\"showTab(\x27related\x27)\">👥 Related</button>\n            "
    ++ recurring_nav
    ++ "\n            "
    ++ nonbank_nav
    ++ "\n            <button class=\"nav-tab\" data-tab=\"recommendations\" onclick=\"showTab(\x27recommendations\x27)\">✅ Recs</button>\n        </div>\n\n        <div id=\"tab-overview\" class=\"tab-content active\">\n            <div class=\"scores-grid\">\n                <div class=\"score-card "
    ++ int_class
    ++ "\"><div class=\"score-value\">"
    ++ int_score_s
    ++ "%</div><div class=\"score-label\">Integrity Score</div><div class=\"score-rating\">"
    ++ int_rating
    ++ "</div></div>\n                <div class=\"score-card "
    ++ kite_class
    ++ "\" onclick=\"showTab(\x27flags\x27)\"><div class=\"score-value\">"
    ++ kite_score_s
    ++ "</div><div class=\"score-label\">Kite Flying Risk</div><div class=\"score-rating\">"
    ++ kite_level
    ++ " RISK</div></div>\n                <div class=\"score-card "
    ++ vol_class
    ++ "\"><div class=\"score-value\">"
    ++ vol_index_s
    ++ "%</div><div class=\"score-label\">Volatility Index</div><div class=\"score-rating\">"
    ++ vol_level
    ++ "</div></div>\n                <div class=\"score-card warning\" onclick=\"showModal(\x27roundFigureModal\x27)\"><div class=\"score-value\">"
    ++ round_count_s
    ++ "</div><div class=\"score-label\">Round Figure Flags</div><div class=\"score-rating\">CLICK TO VIEW</div></div>\n            </div>\n            <div class=\"accounts-grid\">"
    ++ acc_cards
    ++ "</div>\n            <div class=\"section\">\n                <div class=\"section-header\" onclick=\"toggleSection(\x27observationsContent\x27)\"><h2 class=\"section-title\">📊 Key Observations</h2><button class=\"section-toggle\">Toggle</button></div>\n                <div id=\"observationsContent\" class=\"section-content\">\n                    <div class=\"observations-grid\">\n                        <div class=\"positive\"><h4 style=\"color: var(--accent); font-size: 0.85rem; margin-bottom: 1rem;\">✓ POSITIVE INDICATORS</h4><ul class=\"observation-list\">"
    ++ pos_obs
    ++ "</ul></div>\n                        <div class=\"concerns\"><h4 style=\"color: var(--danger); font-size: 0.85rem; margin-bottom: 1rem;\">⚠ AREAS OF CONCERN</h4><ul class=\"observation-list\">"
    ++ con_obs
    ++ "</ul></div>\n                    </div>\n                </div>\n            </div>\n        </div>\n\n        <div id=\"tab-accounts\" class=\"tab-content\">"
    ++ monthly_tables
    ++ "</div>\n\n        <div id=\"tab-turnover\" class=\"tab-content\">\n            <div class=\"section\">\n                <div class=\"section-header\"><h2 class=\"section-title\">💰 Business Turnover Summary</h2></div>\n                <div class=\"section-content\">\n                    <div class=\"turnover-grid\">\n                        <div class=\"turnover-column\"><h3>Gross Totals</h3>\n                            <div class=\"turnover-row\"><span>Total Credits</span><span class=\"mono credit\">RM "
    ++ gross_credits_s
    ++ "</span></div>\n                            <div class=\"turnover-row\"><span>Total Debits</span><span class=\"mono debit\">RM "
    ++ gross_debits_s
    ++ "</span></div>\n                            <div class=\"turnover-row\"><span>Net Flow</span><span class=\"mono "
    ++ gross_nf_cls
    ++ "\">RM "
    ++ gross_nf_s
    ++ "</span></div>\n                        </div>\n                        <div class=\"turnover-column business\"><h3>Business Turnover (Excl. Internal)</h3>\n                            <div class=\"turnover-row\"><span>Net Credits</span><span class=\"mono credit\">RM "
    ++ business_credits_s
    ++ "</span></div>\n                            <div class=\"turnover-row\"><span>Net Debits</span><span class=\"mono debit\">RM "
    ++ business_debits_s
    ++ "</span></div>\n                            <div class=\"turnover-row\"><span>Net Flow</span><span class=\"mono "
    ++ business_nf_cls
    ++ "\">RM "
    ++ business_nf_s
    ++ "</span></div>\n                        </div>\n                    </div>\n                    <div class=\"section\" style=\"margin-top:1.5rem\">\n                        <div class=\"section-header\" onclick=\"toggleSection(\x27exclusionsDetails\x27)\"><h2 class=\"section-title\">🔍 Exclusions Breakdown</h2></div>\n                        <div id=\"exclusionsDetails\" class=\"section-content collapsed\">\n                            <div style=\"display:grid;grid-template-columns:repeat(2,1fr);gap:2rem\">\n                                <div><h4 style=\"color:var(--accent);margin-bottom:1rem\">CREDIT EXCLUSIONS</h4>\n                                    <table class=\"data-table\">\n                                        <tr><td>Inter-Account</td><td class=\"mono text-right\">RM "
    ++ exc_cr_inter_s
    ++ "</td></tr>\n                                        <tr><td>Related Party</td><td class=\"mono text-right\">RM "
    ++ exc_cr_related_s
    ++ "</td></tr>\n                                        <tr><td>Reversals</td><td class=\"mono text-right\">RM "
    ++ exc_cr_reversals_s
    ++ "</td></tr>\n                                        <tr><td>Loan Disbursement</td><td class=\"mono text-right\">RM "
    ++ exc_cr_loan_s
    ++ "</td></tr>\n                                        <tr><td>Interest/FD</td><td class=\"mono text-right\">RM "
    ++ exc_cr_interest_s
    ++ "</td></tr>\n                                        <tr style=\"font-weight:600\"><td>Total</td><td class=\"mono text-right\">RM "
    ++ exc_cr_total_s
    ++ "</td></tr>\n                                    </table>\n                                </div>\n                                <div><h4 style=\"color:var(--danger);margin-bottom:1rem\">DEBIT EXCLUSIONS</h4>\n                                    <table class=\"data-table\">\n                                        <tr><td>Inter-Account</td><td class=\"mono text-right\">RM "
    ++ exc_dr_inter_s
    ++ "</td></tr>\n                                        <tr><td>Related Party</td><td class=\"mono text-right\">RM "
    ++ exc_dr_related_s
    ++ "</td></tr>\n                                        <tr><td>Returned Cheque</td><td class=\"mono text-right\">RM "
    ++ exc_dr_returned_s
    ++ "</td></tr>\n                                        <tr style=\"font-weight:600\"><td>Total</td><td class=\"mono text-right\">RM "
    ++ exc_dr_total_s
    ++ "</td></tr>\n                                    </table>\n                                </div>\n                            </div>\n                        </div>\n                    </div>\n                    "
    ++ inter_transfers_section
    ++ "\n                </div>\n            </div>\n        </div>\n\n        <div id=\"tab-categories\" class=\"tab-content\">\n            <div class=\"section\">\n                <div class=\"section-header\"><h2 class=\"section-title\">📁 Transaction Categories</h2></div>\n                <div class=\"section-content\">\n                    "
    ++ categories_note
    ++ "\n                    <div style=\"display:flex;flex-direction:column;gap:2rem;margin-bottom:1.5rem\">\n                        <div class=\"chart-container\"><div class=\"chart-title\">Credits Distribution</div><div id=\"creditsPieChart\" style=\"height:320px\"></div></div>\n                        <div class=\"chart-container\"><div class=\"chart-title\">Debits Distribution</div><div id=\"debitsPieChart\" style=\"height:450px\"></div></div>\n                    </div>\n                    <div style=\"display:grid;grid-template-columns:repeat(2,1fr);gap:2rem\">\n                        <div><h4 style=\"color:var(--accent);margin-bottom:1rem\">CREDITS <span style=\"font-weight:normal;color:var(--text-muted)\">(click ▶ Top 5 for details)</span></h4><table class=\"data-table\"><thead><tr><th>Category</th><th class=\"text-right\">Count</th><th class=\"text-right\">Amount</th><th class=\"text-right\">%</th></tr></thead><tbody>"
    ++ credits_rows
    ++ "</tbody></table></div>\n                        <div><h4 style=\"color:var(--danger);margin-bottom:1rem\">DEBITS <span style=\"font-weight:normal;color:var(--text-muted)\">(click ▶ Top 5 for details)</span></h4><table class=\"data-table\"><thead><tr><th>Category</th><th class=\"text-right\">Count</th><th class=\"text-right\">Amount</th><th class=\"text-right\">%</th></tr></thead><tbody>"
    ++ debits_rows
    ++ "</tbody></table></div>\n                    </div>\n                </div>\n            </div>\n        </div>\n\n        "
    ++ counterparty_tab
    ++ "\n\n        <div id=\"tab-volatility\" class=\"tab-content\">\n            <div class=\"section\">\n                <div class=\"section-header\"><h2 class=\"section-title\">📈 Cash Flow Volatility</h2></div>\n                <div class=\"section-content\">\n                    <div class=\"summary-cards\">\n                        <div class=\"summary-card\"><div class=\"value\" style=\"color:var(--"
    ++ vol_sum_color
    ++ ")\">"
    ++ vol_index_s
    ++ "%</div><div class=\"label\">Overall Volatility</div></div>\n                        <div class=\"summary-card\"><div class=\"value\">"
    ++ vol_level
    ++ "</div><div class=\"label\">Risk Level</div></div>\n                        <div class=\"summary-card\"><div class=\"value\">"
    ++ vol_alerts_len_s
    ++ "</div><div class=\"label\">Alerts</div></div>\n                    </div>\n                    "
    ++ vol_method_note
    ++ "\n                    <div class=\"chart-container\" style=\"margin:1.5rem 0\"><div class=\"chart-title\">Monthly Volatility</div><div id=\"volatilityChart\" style=\"height:350px\"></div></div>\n                    <div class=\"flag-card\">\n                        <div class=\"flag-header\" onclick=\"toggleDetails(\x27volAlerts\x27)\"><span class=\"flag-title\">⚠️ Volatility Alerts</span><span class=\"flag-count\">"
    ++ vol_alerts_len_s
    ++ " alerts</span></div>\n                        <div id=\"volAlerts\" class=\"flag-details show\"><ul style=\"padding-left:1.5rem\">"
    ++ vol_alerts_html
    ++ "</ul></div>\n                    </div>\n                </div>\n            </div>\n        </div>\n\n        <div id=\"tab-flags\" class=\"tab-content\">\n            <div class=\"section\">\n                <div class=\"section-header\"><h2 class=\"section-title\">🚩 Risk Flags & Alerts</h2></div>\n                <div class=\"section-content\">\n                    <div class=\"summary-cards\">\n                        <div class=\"summary-card\"><div class=\"value\" style=\"color:var(--"
    ++ kite_sum_color
    ++ ")\">"
    ++ kite_score_s
    ++ "</div><div class=\"label\">Kite Flying Score</div></div>\n                        <div class=\"summary-card\"><div class=\"value\">"
    ++ kite_level
    ++ "</div><div class=\"label\">Risk Level</div></div>\n                        <div class=\"summary-card\"><div class=\"value\" style=\"color:var(--warn)\">"
    ++ round_count_s
    ++ "</div><div class=\"label\">Round Figures</div></div>\n                        <div class=\"summary-card\"><div class=\"value\" style=\"color:var(--"
    ++ returned_color
    ++ ")\">"
    ++ returned_count_s
    ++ "</div><div class=\"label\">Returned Cheques</div></div>\n                    </div>\n                    <div class=\"flag-card\">\n                        <div class=\"flag-header\" onclick=\"toggleDetails(\x27kiteDetails\x27)\"><span class=\"flag-title\">🪁 Kite Flying Indicators (7 Checks)</span><span class=\"flag-count\">"
    ++ kite_score_s
    ++ " points</span></div>\n                        <div id=\"kiteDetails\" class=\"flag-details show\">\n                            <table class=\"data-table\"><thead><tr><th>Indicator</th><th>Status</th><th class=\"text-right\">Points</th><th>Finding</th></tr></thead><tbody>"
    ++ kite_rows
    ++ "</tbody></table>\n                        </div>\n                    </div>\n                    <div class=\"flag-card\">\n                        <div class=\"flag-header\" onclick=\"showModal(\x27roundFigureModal\x27)\"><span class=\"flag-title\">⚠️ Round Figure Transactions</span><span class=\"flag-count\">"
    ++ round_count_s
    ++ " found</span></div>\n                    </div>\n                    "
    ++ returned_cheques_html
    ++ "\n                </div>\n            </div>\n        </div>\n\n        <div id=\"tab-integrity\" class=\"tab-content\">\n            <div class=\"section\">\n                <div class=\"section-header\"><h2 class=\"section-title\">✓ Data Integrity Score</h2></div>\n                <div class=\"section-content\">\n                    <div class=\"summary-cards\">\n                        <div class=\"summary-card\"><div class=\"value\" style=\"color:var(--"
    ++ int_sum_color
    ++ ")\">"
    ++ int_score_s
    ++ "%</div><div class=\"label\">Integrity Score</div></div>\n                        <div class=\"summary-card\"><div class=\"value\">"
    ++ int_rating
    ++ "</div><div class=\"label\">Rating</div></div>\n                        <div class=\"summary-card\"><div class=\"value\">"
    ++ int_points_s
    ++ "/"
    ++ max_points_s
    ++ "</div><div class=\"label\">Points Earned</div></div>\n                    </div>\n                    <div class=\"table-container\">\n                        <table class=\"data-table\">\n                            <thead><tr><th>#</th><th>Check</th><th>Tier</th><th>Status</th><th class=\"text-right\">Weight</th><th class=\"text-right\">Points</th><th>Details</th></tr></thead>\n                            <tbody>"
    ++ int_rows
    ++ "</tbody>\n                        </table>\n                    </div>\n                    <div style=\"margin-top:1rem;padding:1rem;background:var(--bg-alt);border-radius:8px;border-left:3px solid var(--info);font-size:0.85rem;color:var(--text-soft)\">\n                        <strong style=\"color:var(--info)\">ℹ️ Scoring:</strong> v"
    ++ schema_version
    ++ " uses "
    ++ max_points_s
    ++ "-point system. Score = (Points Earned / "
    ++ max_points_s
    ++ ") × 100\n                    </div>\n                </div>\n            </div>\n        </div>\n\n        <div id=\"tab-related\" class=\"tab-content\">\n            <div class=\"section\">\n                <div class=\"section-header\"><h2 class=\"section-title\">👥 Related Party Analysis</h2></div>\n                <div class=\"section-content\">\n                    <div class=\"summary-cards\">\n                        <div class=\"summary-card\"><div class=\"value credit\">RM "
    ++ rp_credit_s
    ++ "</div><div class=\"label\">From Related</div></div>\n                        <div class=\"summary-card\"><div class=\"value debit\">RM "
    ++ rp_debit_s
    ++ "</div><div class=\"label\">To Related</div></div>\n                        <div class=\"summary-card\"><div class=\"value\" style=\"color:var(--"
    ++ rp_net_cls
    ++ ")\">RM "
    ++ rp_net_s
    ++ "</div><div class=\"label\">Net Flow</div></div>\n                    </div>\n                    <div class=\"flag-card\">\n                        <div class=\"flag-header\"><span class=\"flag-title\">👤 Declared Related Parties</span><span class=\"flag-count\">"
    ++ related_len_s
    ++ " parties</span></div>\n                        <div style=\"margin:1rem;padding:1rem;background:var(--card-hover);border-radius:8px\">"
    ++ rp_parties
    ++ "</div>\n                    </div>\n                    <div style=\"margin-top:1rem;padding:1rem;background:var(--info-dim);border-radius:8px;font-size:0.85rem;color:var(--info)\">\n                        <strong>ℹ️ Note:</strong> Related party detection matches transaction descriptions against declared party names. Ensure all directors, shareholders, and sister companies are declared in the analysis input.\n                    </div>\n                </div>\n            </div>\n        </div>\n\n        "
    ++ recurring_tab
    ++ "\n        "
    ++ nonbank_tab
    ++ "\n\n        <div id=\"tab-recommendations\" class=\"tab-content\">\n            <div class=\"section\">\n                <div class=\"section-header\"><h2 class=\"section-title\">✅ Recommendations</h2></div>\n                <div class=\"section-content\">"
    ++ rec_html_c
    ++ "</div>\n            </div>\n        </div>\n\n        <div class=\"footer\">\n            <p>Bank Statement Analysis v5.0 (Schema "
    ++ schema_version
    ++ ")</p>\n            <p>Generated: "
/-- The full HTML document template of app.py lines 759-1183, part after the generated-at slot. -/
def mainTplB (period_start : String) (period_end : String) (round_count_s : String) (round_note : String) (round_js : String) (credit_vals : String) (credit_labels : String) (debit_vals : String) (debit_labels : String) (vol_data_js : String) : String :=
  " | Period: "
    ++ period_start
    ++ " - "
    ++ period_end
    ++ "</p>\n        </div>\n    </div>\n\n    <div id=\"roundFigureModal\" class=\"modal-overlay\" onclick=\"closeModal(\x27roundFigureModal\x27,event)\">\n        <div class=\"modal\" onclick=\"event.stopPropagation()\">\n            <div class=\"modal-header\"><h3 class=\"modal-title\">⚠️ Round Figure Transactions ("
    ++ round_count_s
    ++ ")</h3><button class=\"modal-close\" onclick=\"closeModal(\x27roundFigureModal\x27)\">&times;</button></div>\n            <div class=\"modal-body\">\n                "
    ++ round_note
    ++ "\n                <table class=\"data-table\" id=\"modalRoundFigureTable\"><thead><tr><th>Date</th><th>Description</th><th>Type</th><th class=\"text-right\">Amount</th><th>Account</th></tr></thead><tbody id=\"modalRoundFigureTableBody\"></tbody></table>\n            </div>\n        </div>\n    </div>\n\n    <script>\n        function toggleTheme() \x7b\n            const html = document.documentElement;\n            const btn = document.querySelector(\x27.theme-toggle\x27);\n            const newTheme = html.getAttribute(\x27data-theme\x27) === \x27dark\x27 ? \x27light\x27 : \x27dark\x27;\n            html.setAttribute(\x27data-theme\x27, newTheme);\n            btn.textContent = newTheme === \x27dark\x27 ? \x27☀️ Light\x27 : \x27🌙 Dark\x27;\n            localStorage.setItem(\x27theme\x27, newTheme);\n        \x7d\n        const roundFigureTransactions = "
    ++ round_js
    ++ ";\n        function populateRoundFigureTable(id) \x7b document.getElementById(id).innerHTML = roundFigureTransactions.map(t => \x60<tr><td>$\x7bt.date\x7d</td><td>$\x7bt.desc\x7d</td><td><span class=\"badge\" style=\"background:var(--$\x7bt.type===\x27CREDIT\x27?\x27accent\x27:\x27danger\x27\x7d-dim);color:var(--$\x7bt.type===\x27CREDIT\x27?\x27accent\x27:\x27danger\x27\x7d)\">$\x7bt.type\x7d</span></td><td class=\"mono text-right $\x7bt.type===\x27CREDIT\x27?\x27credit\x27:\x27debit\x27\x7d\">RM $\x7bt.amount.toLocaleString()\x7d</td><td>$\x7bt.account\x7d</td></tr>\x60).join(\x27\x27); \x7d\n        function showTab(name) \x7b \n            document.querySelectorAll(\x27.tab-content\x27).forEach(t=>t.classList.remove(\x27active\x27)); \n            document.querySelectorAll(\x27.nav-tab\x27).forEach(b=>b.classList.remove(\x27active\x27)); \n            const tab = document.getElementById(\x27tab-\x27+name); \n            if(tab) tab.classList.add(\x27active\x27); \n            document.querySelectorAll(\x27.nav-tab\x27).forEach(b => \x7b\n                const btnName = b.getAttribute(\x27data-tab\x27);\n                if(btnName === name) b.classList.add(\x27active\x27);\n            \x7d);\n        \x7d\n        function toggleSection(id) \x7b const el = document.getElementById(id); if(el) el.classList.toggle(\x27collapsed\x27); \x7d\n        function toggleDetails(id) \x7b const el = document.getElementById(id); if(el) el.classList.toggle(\x27show\x27); \x7d\n        function toggleTop5(id) \x7b \n            const row = document.getElementById(id); \n            if(row) \x7b \n                row.style.display = row.style.display === \x27none\x27 ? \x27table-row\x27 : \x27none\x27; \n            \x7d\n        \x7d\n        function showModal(id) \x7b document.getElementById(id).classList.add(\x27show\x27); populateRoundFigureTable(\x27modalRoundFigureTableBody\x27); \x7d\n        function closeModal(id,e) \x7b if(!e||e.target.classList.contains(\x27modal-overlay\x27)) document.getElementById(id).classList.remove(\x27show\x27); \x7d\n        \n        document.addEventListener(\x27DOMContentLoaded\x27, function() \x7b\n            const colors = \x7b gridColor: \x27#1e2a42\x27, textColor: \x27#9ca3af\x27, paperBg: \x27transparent\x27, plotBg: \x27transparent\x27 \x7d;\n            populateRoundFigureTable(\x27modalRoundFigureTableBody\x27);\n            Plotly.newPlot(\x27creditsPieChart\x27, [\x7bvalues:"
    ++ credit_vals
    ++ ",labels:"
    ++ credit_labels
    ++ ",type:\x27pie\x27,hole:0.4,marker:\x7bcolors:[\x27#22c55e\x27,\x27#4ade80\x27,\x27#86efac\x27,\x27#bbf7d0\x27,\x27#166534\x27,\x27#15803d\x27,\x27#059669\x27,\x27#10b981\x27]\x7d,textinfo:\x27percent\x27,textposition:\x27inside\x27,textfont:\x7bcolor:\x27#fff\x27,size:12\x7d\x7d], \x7bpaper_bgcolor:colors.paperBg,font:\x7bcolor:colors.textColor,size:11\x7d,showlegend:true,legend:\x7borientation:\x27h\x27,y:-0.15,x:0.5,xanchor:\x27center\x27\x7d,margin:\x7bt:20,b:80,l:20,r:20\x7d\x7d, \x7bresponsive:true,displayModeBar:false\x7d);\n            Plotly.newPlot(\x27debitsPieChart\x27, [\x7bvalues:"
    ++ debit_vals
    ++ ",labels:"
    ++ debit_labels
    ++ ",type:\x27pie\x27,hole:0.4,marker:\x7bcolors:[\x27#ef4444\x27,\x27#f87171\x27,\x27#fca5a5\x27,\x27#fecaca\x27,\x27#dc2626\x27,\x27#b91c1c\x27,\x27#991b1b\x27,\x27#7f1d1d\x27,\x27#f97316\x27,\x27#fb923c\x27,\x27#fbbf24\x27,\x27#a3e635\x27,\x27#84cc16\x27,\x27#22d3ee\x27,\x27#a78bfa\x27,\x27#f472b6\x27]\x7d,textinfo:\x27percent\x27,textposition:\x27inside\x27,textfont:\x7bcolor:\x27#fff\x27,size:12\x7d\x7d], \x7bpaper_bgcolor:colors.paperBg,font:\x7bcolor:colors.textColor,size:11\x7d,showlegend:true,legend:\x7borientation:\x27h\x27,y:-0.25,x:0.5,xanchor:\x27center\x27\x7d,margin:\x7bt:20,b:150,l:20,r:20\x7d\x7d, \x7bresponsive:true,displayModeBar:false\x7d);\n            Plotly.newPlot(\x27volatilityChart\x27, "
    ++ vol_data_js
    ++ ", \x7bpaper_bgcolor:colors.paperBg,font:\x7bcolor:colors.textColor\x7d,barmode:\x27group\x27,showlegend:true,legend:\x7borientation:\x27h\x27,y:1.1\x7d,margin:\x7bt:40,b:40,l:50,r:20\x7d,yaxis:\x7btitle:\x27Volatility %\x27,gridcolor:colors.gridColor\x7d,shapes:[\x7btype:\x27line\x27,x0:-0.5,x1:5.5,y0:100,y1:100,line:\x7bcolor:\x27#f59e0b\x27,width:2,dash:\x27dash\x27\x7d\x7d,\x7btype:\x27line\x27,x0:-0.5,x1:5.5,y0:200,y1:200,line:\x7bcolor:\x27#ef4444\x27,width:2,dash:\x27dash\x27\x7d\x7d]\x7d, \x7bresponsive:true\x7d);\n        \x7d);\n        document.addEventListener(\x27keydown\x27, function(e) \x7b if(e.key===\x27Escape\x27) document.querySelectorAll(\x27.modal-overlay\x27).forEach(m=>m.classList.remove(\x27show\x27)); \x7d);\n    </script>\n</body>\n</html>"

/-! ## Constant markup snippets (plain string literals in the source) -/

/-- Placeholder row when no credit category data exists (app.py line 203). -/
def creditsPlaceholder : String :=
  "<tr><td colspan=\"4\" style=\"text-align:center;color:var(--text-muted);padding:2rem;font-style:italic\">No credit category data available in JSON</td></tr>"

/-- Placeholder row when no debit category data exists (app.py line 229). -/
def debitsPlaceholder : String :=
  "<tr><td colspan=\"4\" style=\"text-align:center;color:var(--text-muted);padding:2rem;font-style:italic\">No debit category data available in JSON</td></tr>"

/-- Default volatility alert list item (app.py line 332). -/
def volAlertsDefaultLi : String :=
  "<li style=\"color:var(--accent)\">✓ No extreme volatility alerts</li>"

/-- The v5.0 intraday-method note (app.py lines 337-339). -/
def volMethodNote : String :=
  "<div style=\"margin-top:1rem;padding:0.75rem;background:var(--info-dim);border-radius:8px;font-size:0.85rem;color:var(--info)\">\n            <strong>ℹ️ v5.0 Intraday Calculation:</strong> Volatility uses ALL transaction balances (intraday), not just End-of-Day balances.\n        </div>"

/-- Placeholder row when no integrity checks exist (app.py line 404). -/
def intRowsPlaceholder : String :=
  "<tr><td colspan=\"7\" style=\"text-align:center;color:var(--text-muted)\">No integrity checks data available</td></tr>"

/-- Placeholder row when no statutory payment data exists (app.py line 480). -/
def recRowsPlaceholder : String :=
  "<tr><td colspan=\"5\" style=\"text-align:center;color:var(--text-muted)\">No statutory payment data available in JSON</td></tr>"

/-- Default recurring-payment alert list item (app.py line 482). -/
def recAlertsDefaultLi : String :=
  "<li style=\"color:var(--accent)\">✓ All statutory payments detected</li>"

/-- Default row when no non-bank financing sources survive dedup (app.py line 602). -/
def nbSourceRowsDefault : String :=
  "<tr><td colspan=\"5\" style=\"text-align:center;color:var(--text-muted)\">No non-bank financing detected</td></tr>"

/-- Empty-data row of the counterparty tables (app.py lines 685 and 692). -/
def cpNoDataRow : String :=
  "<tr><td colspan=\"5\" style=\"text-align:center;color:var(--text-muted)\">No data</td></tr>"

/-- Navigation button for the recurring-payments tab (app.py line 754). -/
def recurringNavBtn : String :=
  "<button class=\"nav-tab\" data-tab=\"recurring\" onclick=\"showTab(\x27recurring\x27)\">📋 Recurring</button>"

/-- Navigation button for the non-bank financing tab (app.py line 755). -/
def nonbankNavBtn : String :=
  "<button class=\"nav-tab\" data-tab=\"nonbank\" onclick=\"showTab(\x27nonbank\x27)\">🏦 Non-Bank</button>"

/-- Navigation button for the counterparty tab (app.py line 756). -/
def counterpartyNavBtn : String :=
  "<button class=\"nav-tab\" data-tab=\"counterparties\" onclick=\"showTab(\x27counterparties\x27)\">👥 Counterparties</button>"

/-- Info note rendered when no category data exists (app.py line 1015). -/
def categoriesNote : String :=
  "<div style=\"margin-bottom:1.5rem;padding:1rem;background:var(--info-dim);border-radius:8px;border-left:3px solid var(--info);font-size:0.9rem;color:var(--info)\"><strong>ℹ️ Note:</strong> Category data not found in JSON. To enable this section, ensure your analysis JSON includes a <code>categories</code> object with <code>credits</code> and <code>debits</code> arrays as defined in schema v5.0.4.</div>"

/-- Default recommendations body (app.py line 1121). -/
def recHtmlDefault : String :=
  "<div style=\"color:var(--text-muted);text-align:center;padding:2rem\">No recommendations</div>"

/-! ## Fragment builders (the statement-by-statement translation of
`generate_interactive_html`, app.py lines 51-757) -/

/-- Python `j[idx]` for a nonnegative index on sequences (helper for the
kite-flying string branch). -/
def pyIndexAt (j : Json) (idx : Nat) : Except String Json :=
  match j with
  | .arr l =>
      match l.get? idx with
      | some x => .ok x
      | none => .error pyErr
  | .str s =>
      match s.data.get? idx with
      | some c => .ok (.str c.toString)
      | none => .error pyErr
  | _ => .error pyErr

/-- One normalized transaction of the `flagged_for_review` compatibility
block (app.py lines 76-84). -/
def convertFlaggedItem (t : List (String × Json)) : Json :=
  .obj [("date", (t.lookup "date").getD (.str "")),
        ("description", (t.lookup "description").getD (.str "")),
        ("type", (t.lookup "type").getD (.str "CREDIT")),
        ("amount", (t.lookup "amount").getD (.num 0)),
        ("account", (t.lookup "account").getD (.str "")),
        ("counterparty", (t.lookup "counterparty").getD (.str "")),
        ("flag_reason", (t.lookup "flag_reason").getD (.str ""))]

/-- The v5.2.x `flagged_for_review` fold-in (app.py lines 63-91): when
`flagged_for_review` is a non-empty dict and `flags` has no truthy
`round_figure_transactions`, synthesize that entry from the review items.
Every step of this block is exception-free in Python, so the translation is
pure. -/
def mergeFlaggedForReview (flags ffr : Json) : Json :=
  match ffr with
  | .obj ffs =>
    if ffs.isEmpty then flags else
      let fls := match flags with | .obj fl => fl | _ => []
      if ((fls.lookup "round_figure_transactions").getD .null).truthy then .obj fls
      else
        let items := pyOr ((ffs.lookup "all_items").getD .null)
                      (pyOr ((ffs.lookup "top_10_items").getD .null) (.arr []))
        let items := match items with | .arr l => l | _ => []
        let converted := items.filterMap fun t =>
          match t with | .obj tf => some (convertFlaggedItem tf) | _ => none
        .obj (setKey fls "round_figure_transactions" (.obj
            [("count", (ffs.lookup "count").getD (.num converted.length)),
             ("total_amount", (ffs.lookup "total_amount").getD (.num 0)),
             ("all_transactions", .arr converted),
             ("top_10_transactions", .arr (converted.take 10)),
             ("note", (ffs.lookup "note").getD (.str ""))]))
  | _ => flags

/-- One account card (app.py lines 134-152). -/
def acc_card_row (a : Json) : Except String String := do
  let cls ← pyGet a "classification" (.str "SECONDARY")
  let card_cls := if pyEq cls (.str "PRIMARY") then "primary" else "secondary"
  let badge_cls := if pyEq cls (.str "PRIMARY") then "badge-primary" else "badge-secondary"
  let cb ← pyGet a "closing_balance" (.num 0)
  let lt ← pyLtInt cb 20000
  let closing_cls := if lt then "debit" else ""
  let bank ← pyGet a "bank_name" (.str "")
  let acct ← pyGet a "account_number" (.str "")
  let credits_s ← pyFmtC2 (← pyGet a "total_credits" (.num 0))
  let debits_s ← pyFmtC2 (← pyGet a "total_debits" (.num 0))
  let txns_s ← pyFmtComma (← pyGet a "transaction_count" (.num 0))
  let closing_s ← pyFmtC2 cb
  pure (accCardTpl card_cls (pyStr bank) badge_cls (pyStr cls) (pyStr acct)
        credits_s debits_s txns_s closing_cls closing_s)

/-- The account cards block (app.py lines 133-152). -/
def acc_cards_frag (accounts : Json) : Except String String := do
  let as' ← pyIter accounts
  let rows ← as'.mapM acc_card_row
  pure (String.join rows)

/-- One monthly summary row (app.py lines 161-177). -/
def monthly_row (schema_version : String) (m : Json) : Except String String := do
  let vl ← pyGet m "volatility_level" (.str "LOW")
  let vs := if pyEq vl (.str "EXTREME") then Json.str "EXTR"
            else if pyEq vl (.str "MODERATE") then Json.str "MOD" else vl
  let high_val ← get_monthly_high m schema_version
  let low_val ← get_monthly_low m schema_version
  let inner ← pyGet m "month" (.str "")
  let month ← pyGet m "month_name" inner
  let opening_s ← pyFmtC2 (← pyGet m "opening" (.num 0))
  let credits_s ← pyFmtC2 (← pyGet m "credits" (.num 0))
  let debits_s ← pyFmtC2 (← pyGet m "debits" (.num 0))
  let closing_s ← pyFmtC2 (← pyGet m "closing" (.num 0))
  let high_s ← pyFmtC2 high_val
  let low_s ← pyFmtC2 low_val
  let swing_s ← pyFmtC2 (← pyGet m "swing" (.num 0))
  let vpct_s ← pyFmt0 (← pyGet m "volatility_pct" (.num 0))
  pure (monthlyRowTpl (pyStr month) opening_s credits_s debits_s closing_s
        high_s low_s swing_s (pyStr vl) vpct_s (pyStr vs))

/-- One per-account monthly summary section (app.py lines 159-189). -/
def monthly_table (schema_version high_label low_label : String) (a : Json) :
    Except String String := do
  let mm ← pyGet a "monthly_summary" (.arr [])
  let months ← pyIter mm
  let rows ← months.mapM (monthly_row schema_version)
  let bank ← pyGet a "bank_name" (.str "")
  let acct ← pyGet a "account_number" (.str "")
  pure (monthlyTableTpl (pyStr bank) (pyStr acct) high_label low_label (String.join rows))

/-- The monthly tables block (app.py lines 158-189). -/
def monthly_tables_frag (schema_version high_label low_label : String)
    (accounts : Json) : Except String String := do
  let as' ← pyIter accounts
  let ts ← as'.mapM (monthly_table schema_version high_label low_label)
  pure (String.join ts)

/-- One top-5 exemplar transaction row (app.py lines 213 and 238). -/
def cat_top5_row (tpl : String → String → String → String) (t : Json) :
    Except String String := do
  let date ← pyGet t "date" (.str "")
  let cp0 ← pyGet t "counterparty" .null
  let cp1 ← pyGet t "description" .null
  let cp30 ← pySliceTo 30 (pyOr cp0 (pyOr cp1 (.str "")))
  let amount_s ← pyFmtC2 (← pyGet t "amount" (.num 0))
  pure (tpl (pyStr date) (pyStr cp30) amount_s)

/-- One category row with expandable top-5 details (app.py lines 205-224
for credits, 231-249 for debits; `isCr` selects the side). -/
def cat_row (isCr : Bool) (idx : Nat) (c : Json) : Except String String := do
  let cat_name ← pyGet c "category" (.str "")
  let top5 ← pyGet c "top_5_transactions" (.arr [])
  let l ← pyLen top5
  let has_top5 := l > 0
  let top5_html ← (if has_top5 then do
      let t5 ← pySliceTo 5 top5
      let ts ← pyIter t5
      let rows ← ts.mapM (cat_top5_row (if isCr then top5RowCrTpl else top5RowDrTpl))
      pure ((if isCr then top5HtmlCrTpl else top5HtmlDrTpl) (toString idx) (String.join rows))
    else pure "")
  let toggle_btn := if has_top5 then
      (if isCr then toggleBtnCrTpl else toggleBtnDrTpl) (toString idx) else ""
  let count ← pyGet c "count" (.num 0)
  let amount_s ← pyFmtC2 (← pyGet c "amount" (.num 0))
  let pct_s ← pyFmt1 (← pyGet c "percentage" (.num 0))
  pure ((if isCr then catRowCrTpl else catRowDrTpl) (pyStr cat_name) toggle_btn
        (pyStr count) amount_s pct_s top5_html)

/-- One side's category rows, or the side's placeholder row when the list
is falsy (app.py lines 201-249). -/
def cat_rows_frag (isCr : Bool) (cat : Json) : Except String String :=
  if !cat.truthy then pure (if isCr then creditsPlaceholder else debitsPlaceholder)
  else do
    let cs ← pyIter cat
    let rows ← cs.enum.mapM fun ic => cat_row isCr ic.1 ic.2
    pure (String.join rows)

/-- Observation list items (app.py lines 252-253). -/
def obs_items_frag (items : Json) : Except String String := do
  let xs ← pyIter items
  pure (String.join (xs.map fun o => obsLiTpl (pyStr o)))

/-- One recommendation item (app.py lines 257-266). -/
def rec_item (rec : Json) : Except String String := do
  let p ← pyLower (← pyGet rec "priority" (.str "LOW"))
  let pr ← pyGet rec "priority" (.str "LOW")
  let cat ← pyGet rec "category" (.str "")
  let txt ← pyGet rec "recommendation" (.str "")
  pure (recItemTpl p (pyStr pr) (pyStr cat) (pyStr txt))

/-- The recommendations block (app.py lines 256-266). -/
def rec_html_frag (recommendations : Json) : Except String String := do
  let xs ← pyIter recommendations
  let rows ← xs.mapM rec_item
  pure (String.join rows)

/-- Resolution of the round-figure transaction list (app.py line 270):
`round_fig.get('all_transactions', round_fig.get('top_10_transactions',
round_fig.get('transactions', [])))`. -/
def round_txns_resolve (round_fig : Json) : Except String Json := do
  let t0 ← pyGet round_fig "transactions" (.arr [])
  let t1 ← pyGet round_fig "top_10_transactions" t0
  pyGet round_fig "all_transactions" t1

/-- The embedded JS array of round-figure transactions (app.py lines
271-277), serialized with `json.dumps`. -/
def round_js_frag (round_txns : Json) : Except String String := do
  let ts ← pyIter round_txns
  let objs ← ts.mapM fun t => do
    let date ← pyGet t "date" (.str "")
    let desc ← pyGet t "description" (.str "")
    let ty ← pyGet t "type" (.str "CREDIT")
    let amt ← pyGet t "amount" (.num 0)
    let acct ← pyGet t "account" (.str "")
    pure (Json.obj [("date", date), ("desc", desc), ("type", ty),
                    ("amount", amt), ("account", acct)])
  pure (jsonDumps (.arr objs))

/-- The truncation note (app.py lines 279-281). -/
def round_note_frag (round_txns round_count : Json) : Except String String := do
  let l ← pyLen round_txns
  let lt ← pyNatLt l round_count
  if lt then pure (roundNoteTpl (toString l) (pyStr round_count)) else pure ""

/-- One structured kite-flying indicator row (app.py lines 293-296). -/
def kite_struct_row (i : Json) : Except String String := do
  let status ← pyGet i "status" (.str "PASS")
  let status_class := if pyEq status (.str "PASS") then "LOW"
    else if pyEq status (.str "MONITOR") || pyEq status (.str "WARNING") then "MODERATE"
    else "EXTREME"
  let ind ← pyGet i "indicator" (.str "")
  let pts ← pyGet i "points" (.num 0)
  let finding ← pyGet i "finding" (.str "")
  pure (kiteRowTpl (pyStr ind) status_class (pyStr status) (pyStr pts) (pyStr finding))

/-- One string-format kite-flying indicator row (app.py lines 300-305);
the status is uniform, derived from the aggregate score. -/
def kite_str_row (kite_score df : Json) (idx : Nat) (s : Json) :
    Except String String := do
  let l ← pyLen df
  let finding ← if idx < l then pyIndexAt df idx else pure s
  let gt ← pyGtInt kite_score 0
  let status := if gt then "WARNING" else "PASS"
  let status_class := if status == "WARNING" then "MODERATE" else "LOW"
  pure (kiteRowStrTpl (pyStr s) status_class status (pyStr finding))

/-- The seven synthesized default indicator rows (app.py lines 308-320). -/
def kite_default_rows (round_count : Json) : Except String String := do
  let gt ← pyGtInt round_count 5
  let row3status := if gt then "WARNING" else "PASS"
  let row3pts := if gt then "2" else "0"
  let rows : List (String × String × String × String) :=
    [("Circular Transfers", "PASS", "0", "No A→B→A patterns detected"),
     ("Month-End Concentration", "PASS", "0", "Normal distribution"),
     ("Round Amount Patterns", row3status, row3pts, roundFindingTpl (pyStr round_count)),
     ("Timing Exploitation", "PASS", "0", "No suspicious timing patterns"),
     ("Suspicious Balance Spikes", "PASS", "0", "Balance movements within normal range"),
     ("Same Amount In/Out", "PASS", "0", "No matching in/out amounts detected"),
     ("Vague Descriptions", "PASS", "0", "Transaction descriptions are clear")]
  pure (String.join (rows.map fun r =>
    kiteRowTpl r.1
      (if r.2.1 = "PASS" then "LOW" else if r.2.1 = "WARNING" then "MODERATE" else "EXTREME")
      r.2.1 r.2.2.1 r.2.2.2))

/-- The kite-flying indicator table body (app.py lines 287-320).  The row
format is chosen by the type of the first list element; an empty result
falls back to the seven defaults. -/
def kite_rows_frag (kite kite_score round_count : Json) : Except String String := do
  let kite_indicators ← pyGet kite "indicators" (.arr [])
  let kite_rows ← (if kite_indicators.truthy then do
      let i0 ← pyIndex0 kite_indicators
      match i0 with
      | .obj _ => do
          let xs ← pyIter kite_indicators
          let rows ← xs.mapM kite_struct_row
          pure (String.join rows)
      | .str _ => do
          let df ← pyGet kite "detailed_findings" (.arr [])
          let xs ← pyIter kite_indicators
          let rows ← xs.enum.mapM fun is' => kite_str_row kite_score df is'.1 is'.2
          pure (String.join rows)
      | _ => pure ""
    else pure "")
  if kite_rows == "" then kite_default_rows round_count else pure kite_rows

/-- Fold step of the volatility alert synthesis: one account-month (app.py
lines 326-331).  Appends one formatted line when the level is HIGH or
EXTREME. -/
def vol_alert_month (a : Json) (va m : Json) : Except String Json := do
  let vl ← pyGet m "volatility_level" (.str "LOW")
  let vpct ← pyGet m "volatility_pct" (.num 0)
  let inner ← pyGet m "month" (.str "")
  let month_name ← pyGet m "month_name" inner
  if pyEq vl (.str "HIGH") || pyEq vl (.str "EXTREME") then do
    let bank ← pyGet a "bank_name" (.str "")
    let vpct_s ← pyFmt0 vpct
    pyAppend va (.str (volAlertLineTpl (pyStr month_name) (pyStr bank) vpct_s (pyStr vl)))
  else pure va

/-- One account of the volatility alert synthesis (app.py lines 325-331):
fold over the account's months. -/
def vol_alert_account (acc a : Json) : Except String Json := do
  let mm ← pyGet a "monthly_summary" (.arr [])
  let months ← pyIter mm
  months.foldlM (vol_alert_month a) acc

/-- The volatility alert list (app.py lines 323-331): the supplied
`volatility.alerts` when truthy, else one synthesized line per HIGH/EXTREME
account-month, appended in account-then-month order. -/
def build_vol_alerts (volatility accounts : Json) : Except String Json := do
  let va ← pyGet volatility "alerts" (.arr [])
  if va.truthy then pure va else do
    let as' ← pyIter accounts
    as'.foldlM vol_alert_account va

/-- The rendered alert list items (app.py line 332). -/
def vol_alerts_html_frag (va : Json) : Except String String := do
  if va.truthy then do
    let xs ← pyIter va
    pure (String.join (xs.map fun a => volAlertLiTpl (pyStr a)))
  else pure volAlertsDefaultLi

/-- Chart series projection (app.py lines 342-354): `json.dumps` of one
per-category field, `"[]"` when the category list is falsy. -/
def chart_vals_frag (cat : Json) (key : String) (dflt : Json) :
    Except String String :=
  if cat.truthy then do
    let cs ← pyIter cat
    let vals ← cs.mapM fun c => pyGet c key dflt
    pure (jsonDumps (.arr vals))
  else pure "[]"

/-- The chart month names (app.py line 359). -/
def month_names_list : List String :=
  ["Jan", "Feb", "Mar", "Apr", "May", "Jun", "Jul", "Aug", "Sep", "Oct", "Nov", "Dec"]

/-- One normalized chart month label (app.py lines 364-374): parse an ISO
`YYYY-MM` month into `Mon YYYY`, else fall back to the display name, else to
the raw month value. -/
def vol_label (period_year : Json) (m : Json) : Except String Json := do
  let month_str ← pyGet m "month" (.str "")
  let month_name ← pyGet m "month_name" (.str "")
  if month_str.truthy then do
    let c ← pyContains "-" month_str
    if c then do
      let ms ← (match month_str with | .str s => Except.ok s | _ => Except.error pyErr)
      let parts := strSplitChar '-' ms
      let month_num ← (match parts with | _ :: p1 :: _ => pyParseInt p1 | _ => pure 1)
      let mon ← pyListGet month_names_list (month_num - 1)
      pure (.str (volLabelTpl mon (pyStr period_year)))
    else if month_name.truthy then pure month_name
    else pyGet m "month" (.str "")
  else if month_name.truthy then pure month_name
  else pyGet m "month" (.str "")

/-- One account's grouped-bar series for the volatility chart (app.py
lines 361-382). -/
def vol_data_account (period_year : Json) (i : Nat) (a : Json) :
    Except String Json := do
  let mm ← pyGet a "monthly_summary" (.arr [])
  let months ← pyIter mm
  let labels ← months.mapM (vol_label period_year)
  let ys ← months.mapM fun m => pyGet m "volatility_pct" (.num 0)
  let name ← pyGet a "bank_name" (.str "")
  let color := if i == 0 then "#f59e0b" else if i == 1 then "#ef4444" else "#8b5cf6"
  pure (.obj [("x", .arr labels), ("y", .arr ys), ("name", name),
              ("type", .str "bar"), ("marker", .obj [("color", .str color)])])

/-- The volatility chart data as embedded JSON (app.py lines 357-383). -/
def vol_data_frag (period_start accounts : Json) : Except String String := do
  let period_year ← (if period_start.truthy then pySliceTo 4 period_start
                     else pure (.str "2024"))
  let as' ← pyIter accounts
  let ds ← as'.enum.mapM fun ia => vol_data_account period_year ia.1 ia.2
  pure (jsonDumps (.arr ds))

/-- One integrity check row (app.py lines 388-401). -/
def int_row (c : Json) : Except String String := do
  let tier ← pyGet c "tier" (.str "MONITOR")
  let status ← pyGet c "status" (.str "PASS")
  let tier_color := if pyEq tier (.str "CRITICAL") then "danger"
    else if pyEq tier (.str "WARNING") then "warn"
    else if pyEq tier (.str "COMPLIANCE") then "purple" else "info"
  let status_color := if pyEq status (.str "PASS") then "accent" else "danger"
  let cid ← pyGet c "id" (.str "")
  let nm ← pyGet c "name" (.str "")
  let wt ← pyGet c "weight" (.num 0)
  let pe ← pyGet c "points_earned" (.num 0)
  let dt ← pyGet c "details" (.str "")
  pure (intRowTpl (pyStr cid) (pyStr nm) tier_color (pyStr tier) status_color
        (pyStr status) (pyStr wt) (pyStr pe) (pyStr dt))

/-- The integrity checks table body (app.py lines 386-404). -/
def int_rows_frag (int_checks : Json) : Except String String := do
  let xs ← pyIter int_checks
  let rows ← xs.mapM int_row
  let s := String.join rows
  if s == "" then pure intRowsPlaceholder else pure s

/-- The declared related-parties display string (app.py lines 411-419):
dict entries are shown by name (`str(p)` fallback), string entries
verbatim, and an empty list as `None specified`. -/
def rp_parties_frag (related_parties : Json) : Except String String := do
  if related_parties.truthy then do
    let i0 ← pyIndex0 related_parties
    match i0 with
    | .obj _ => do
        let ps ← pyIter related_parties
        let names ← ps.mapM fun p => pyGet p "name" (.str (pyStr p))
        pyJoin ", " names
    | _ => do
        let ps ← pyIter related_parties
        pure (String.intercalate ", " (ps.map pyStr))
  else pure "None specified"

/-- Source `safe_exclusion_value(val)` (app.py lines 423-427): a dict
resolves to its `total`, a number (or bool) to itself, anything else to 0. -/
def safe_exclusion_value (val : Json) : Json :=
  match val with
  | .obj fs => (fs.lookup "total").getD (.num 0)
  | .num n => .num n
  | .bool b => .bool b
  | _ => .num 0

/-- The fixed payment-type keys probed for per-type recurring data
(app.py line 454). -/
def payment_types_list : List String :=
  ["EPF/KWSP", "SOCSO/PERKESO", "TAX/LHDN", "RENT", "UTILITIES", "LOAN_REPAYMENT"]

/-- Fold step synthesizing one recurring-payment row from per-type
sub-objects (app.py lines 455-464). -/
def rec_payment_key_row (recurring total_months : Json) (acc : Json)
    (pt : String) : Except String Json := do
  let d1 ← pyGet recurring (strReplaceChar '/' '_' (strLower pt)) (.obj [])
  let d2 ← pyGet recurring pt (.obj [])
  let pt_data := pyOr d1 d2
  if pt_data.truthy then do
    let expected ← pyGet pt_data "expected" total_months
    let inner ← pyGet pt_data "count" (.num 0)
    let found ← pyGet pt_data "found" inner
    let missing ← pyGet pt_data "missing_months" (.arr [])
    let status ← pyGet pt_data "status" (.str "OK")
    pyAppend acc (.obj [("type", .str pt), ("expected_count", expected),
                        ("found_count", found), ("missing_months", missing),
                        ("status", status)])
  else pure acc

/-- One recurring-payment table row (app.py lines 467-476). -/
def rec_row (p : Json) : Except String String := do
  let status ← pyGet p "status" (.str "OK")
  let mm ← pyGet p "missing_months" (.arr [])
  let items ← pyIter mm
  let joined ← pyJoin ", " items
  let missing := if joined == "" then "None" else joined
  let inner ← pyGet p "payment_type" (.str "")
  let ptype ← pyGet p "type" inner
  let inner2 ← pyGet p "expected" (.num 0)
  let expected ← pyGet p "expected_count" inner2
  let i3 ← pyGet p "count" (.num 0)
  let i4 ← pyGet p "found" i3
  let found ← pyGet p "found_count" i4
  let status_class := if pyEq status (.str "OK") || pyEq status (.str "COMPLIANT")
      || pyEq status (.str "PASS") then "LOW" else "EXTREME"
  pure (recRowTpl (pyStr ptype) (pyStr expected) (pyStr found) missing
        status_class (pyStr status))

/-- The recurring-payments tab (app.py lines 445-525); empty string when
the section data is falsy. -/
def recurring_tab_frag (recurring total_months : Json) : Except String String := do
  if !recurring.truthy then pure "" else do
  let p0 ← pyGet recurring "payments" (.arr [])
  let p1 ← pyGet recurring "statutory_payments" (.arr [])
  let p2 ← pyGet recurring "payment_types" (.arr [])
  let rec_payments := pyOr p0 (pyOr p1 p2)
  let a0 ← pyGet recurring "alerts" (.arr [])
  let a1 ← pyGet recurring "warnings" (.arr [])
  let rec_alerts := pyOr a0 a1
  let rec_assessment ← pyGet recurring "assessment" (.obj [])
  let rec_payments ← (if !rec_payments.truthy then
      payment_types_list.foldlM (rec_payment_key_row recurring total_months) rec_payments
    else pure rec_payments)
  let ps ← pyIter rec_payments
  let rows ← ps.mapM rec_row
  let rec_rows := String.join rows
  let rec_rows := if rec_rows == "" then recRowsPlaceholder else rec_rows
  let rec_alerts_html ← (if rec_alerts.truthy then do
      let xs ← pyIter rec_alerts
      pure (String.join (xs.map fun a => recAlertLiTpl (pyStr a)))
    else pure recAlertsDefaultLi)
  let cr ← (match rec_assessment with
    | .str s =>
        let u := strUpper s
        if strContains u "MISSING" || strContains u "ALERT" || strContains u "NOT" then
          pure (Json.str "ALERT", Json.str "MODERATE")
        else if strContains u "OK" || strContains u "MET" || strContains u "COMPLIANT" then
          pure (Json.str "COMPLIANT", Json.str "LOW")
        else pure (Json.str s, Json.str "LOW")
    | .obj afs =>
        let inner := (afs.lookup "compliance").getD (.str "COMPLIANT")
        pure ((afs.lookup "statutory_compliance").getD inner,
              (afs.lookup "risk_level").getD (.str "LOW"))
    | _ => pure (Json.str "COMPLIANT", Json.str "LOW"))
  let compliance := cr.1
  let risk := cr.2
  let compliance_color := if pyEq compliance (.str "COMPLIANT")
      || pyEq compliance (.str "OK") then "accent" else "danger"
  let risk_color := if pyEq risk (.str "LOW") then "accent"
      else if pyEq risk (.str "MODERATE") then "warn" else "danger"
  pure (recurringTabTpl compliance_color (pyStr compliance) risk_color (pyStr risk)
        rec_rows rec_alerts_html)

/-- Python hashability guard for set membership: lists and dicts raise. -/
def pyHashable : Json → Except String Unit
  | .arr _ => .error pyErr
  | .obj _ => .error pyErr
  | _ => .ok ()

/-- One iteration of the non-bank financing source deduplication (app.py
lines 551-555): keyed on `total_inflow` through a seen-set (membership by
Python equality, unhashable keys raise), first occurrence wins. -/
def dedup_step (st : List Json × List Json) (s : Json) :
    Except String (List Json × List Json) := do
  let amount ← pyGet s "total_inflow" (.num 0)
  let _ ← pyHashable amount
  if st.1.any fun a => pyEq a amount then pure st
  else pure (st.1 ++ [amount], st.2 ++ [s])

/-- The dedup loop itself (app.py lines 549-555): fold `dedup_step` over
the sources from an empty seen-set and return the unique list. -/
def dedup_sources (sources : List Json) : Except String (List Json) := do
  let st ← sources.foldlM dedup_step ([], [])
  pure st.2

/-- One financing source row (app.py lines 558-567). -/
def nb_source_row (s : Json) : Except String String := do
  let status ← pyGet s "status" (.str "INFO")
  let status_class := if pyEq status (.str "INFO") then "info"
    else if pyEq status (.str "MONITOR") then "warn" else "danger"
  let st ← pyGet s "source_type" (.str "")
  let cnt ← pyGet s "count" (.num 0)
  let inflow_s ← pyFmtC2 (← pyGet s "total_inflow" (.num 0))
  let rp ← pyGet s "total_repayment" (.num 0)
  let repay_s ← pyFmtC2 (pyOr rp (.num 0))
  pure (nbSourceRowTpl (pyStr st) (pyStr cnt) inflow_s repay_s status_class (pyStr status))

/-- One suspected unlicensed lending row (app.py lines 571-577). -/
def nb_susp_row (sus : Json) : Except String String := do
  let date ← pyGet sus "date" (.str "")
  let c0 ← pyGet sus "counterparty" .null
  let c1 ← pyGet sus "description" .null
  let cp ← pySliceTo 40 (pyOr c0 (pyOr c1 (.str "")))
  let amount_s ← pyFmtC2 (← pyGet sus "amount" (.num 0))
  let reason ← pyGet sus "reason" (.str "")
  pure (nbSuspRowTpl (pyStr date) (pyStr cp) amount_s (pyStr reason))

/-- The non-bank financing tab (app.py lines 530-610); empty string when
the section data is falsy. -/
def nonbank_tab_frag (non_bank : Json) : Except String String := do
  if !non_bank.truthy then pure "" else do
  let nb_sources ← pyGet non_bank "sources" (.arr [])
  let nb_suspected ← pyGet non_bank "suspected_unlicensed" (.arr [])
  let nb_assessment ← pyGet non_bank "assessment" (.obj [])
  let nb_risk0 ← pyGet non_bank "risk_level" (.str "LOW")
  let rs := (match nb_assessment with
    | .str s => (nb_risk0, Json.str s)
    | .obj afs => ((afs.lookup "risk_level").getD nb_risk0,
                   (afs.lookup "summary").getD (.str ""))
    | _ => (nb_risk0, Json.str ""))
  let nb_risk := rs.1
  let nb_summary := rs.2
  let ss ← pyIter nb_sources
  let unique_sources ← dedup_sources ss
  let srows ← unique_sources.mapM nb_source_row
  let source_rows := String.join srows
  let s10 ← pySliceTo 10 nb_suspected
  let sus ← pyIter s10
  let sus_rows ← sus.mapM nb_susp_row
  let suspected_rows := String.join sus_rows
  let suspected_section ← (if suspected_rows == "" then pure "" else do
      let l ← pyLen nb_suspected
      pure (nbSuspSectionTpl (toString l) suspected_rows))
  let risk_color := if pyEq nb_risk (.str "LOW") then "accent"
    else if pyEq nb_risk (.str "MODERATE") then "warn" else "danger"
  let source_rows_c := if source_rows == "" then nbSourceRowsDefault else source_rows
  let summary_div := if nb_summary.truthy then nbSummaryDivTpl (pyStr nb_summary) else ""
  pure (nonbankTabTpl risk_color (pyStr nb_risk) source_rows_c suspected_section summary_div)

/-- The counterparty navigation button (app.py line 756): present exactly
when the counterparty data is truthy. -/
def counterparty_nav_frag (counterparties : Json) : String :=
  if counterparties.truthy then counterpartyNavBtn else ""

/-- One counterparty payer/payee row (app.py lines 623-631 and 634-642;
the template argument selects the side). -/
def cp_party_row (tpl : String → String → String → String → String → String → String)
    (p : Json) : Except String String := do
  let irv ← pyGet p "is_related_party" .null
  let is_related := if irv.truthy then "👤" else ""
  let rank ← pyGet p "rank" (.str "")
  let pn ← pySliceTo 35 (← pyGet p "party_name" (.str ""))
  let cnt ← pyGet p "transaction_count" (.num 0)
  let amount_s ← pyFmtC2 (← pyGet p "total_amount" (.num 0))
  let pct_s ← pyFmt1 (← pyGet p "percentage" (.num 0))
  pure (tpl (pyStr rank) (pyStr pn) is_related (pyStr cnt) amount_s pct_s)

/-- One both-sides counterparty row (app.py lines 652-657). -/
def cp_both_row (p : Json) : Except String String := do
  let pn ← pySliceTo 35 (← pyGet p "party_name" (.str ""))
  let cr ← pyFmtC2 (← pyGet p "credit_amount" (.num 0))
  let dr ← pyFmtC2 (← pyGet p "debit_amount" (.num 0))
  pure (cpBothRowTpl (pyStr pn) cr dr)

/-- The counterparty analysis tab (app.py lines 615-699); empty string when
the section data is falsy. -/
def counterparty_tab_frag (counterparties : Json) : Except String String := do
  if !counterparties.truthy then pure "" else do
  let top_payers ← pyGet counterparties "top_payers" (.arr [])
  let top_payees ← pyGet counterparties "top_payees" (.arr [])
  let concentration ← pyGet counterparties "concentration_risk" (.obj [])
  let parties_both ← pyGet counterparties "parties_both_sides" (.arr [])
  let pr10 ← pySliceTo 10 top_payers
  let prs ← pyIter pr10
  let prow ← prs.mapM (cp_party_row cpPayerRowTpl)
  let payer_rows := String.join prow
  let pe10 ← pySliceTo 10 top_payees
  let pes ← pyIter pe10
  let perow ← pes.mapM (cp_party_row cpPayeeRowTpl)
  let payee_rows := String.join perow
  let conc_risk ← pyGet concentration "risk_level" (.str "LOW")
  let top1_payer ← pyGet concentration "top1_payer_pct" (.num 0)
  let top3_payers ← pyGet concentration "top3_payers_pct" (.num 0)
  let top1_payee ← pyGet concentration "top1_payee_pct" (.num 0)
  let _top3_payees ← pyGet concentration "top3_payees_pct" (.num 0)
  let b5 ← pySliceTo 5 parties_both
  let bs ← pyIter b5
  let brow ← bs.mapM cp_both_row
  let both_rows := String.join brow
  let both_section ← (if parties_both.truthy then do
      let l ← pyLen parties_both
      pure (cpBothSectionTpl (toString l) both_rows)
    else pure "")
  let conc_color := if pyEq conc_risk (.str "LOW") then "accent"
    else if pyEq conc_risk (.str "MODERATE") then "warn" else "danger"
  let t1 ← pyFmt0 top1_payer
  let t3 ← pyFmt0 top3_payers
  let t1e ← pyFmt0 top1_payee
  let payer_rows_c := if payer_rows == "" then cpNoDataRow else payer_rows
  let payee_rows_c := if payee_rows == "" then cpNoDataRow else payee_rows
  pure (counterpartyTabTpl conc_color (pyStr conc_risk) t1 t3 t1e
        payer_rows_c payee_rows_c both_section)

/-- One returned cheque row (app.py line 705). -/
def ret_row (t : Json) : Except String String := do
  let date ← pyGet t "date" (.str "")
  let desc ← pySliceTo 40 (← pyGet t "description" (.str ""))
  let amount_s ← pyFmtC2 (← pyGet t "amount" (.num 0))
  pure (retRowTpl (pyStr date) (pyStr desc) amount_s)

/-- The returned cheques flag card (app.py lines 702-716); empty string
when the count is not positive. -/
def returned_cheques_frag (returned_cheques returned_count returned_assessment : Json) :
    Except String String := do
  let gt ← pyGtInt returned_count 0
  if !gt then pure "" else do
  let rt ← pyGet returned_cheques "transactions" (.arr [])
  let r10 ← pySliceTo 10 rt
  let ts ← pyIter r10
  let rows ← ts.mapM ret_row
  let total_s ← pyFmtC2 (← pyGet returned_cheques "total_value" (.num 0))
  pure (returnedSectionTpl (pyStr returned_count) (pyStr returned_assessment)
        total_s (String.join rows))

/-- Inter-account transfer resolution (app.py lines 720-727): the transfer
list from `matched_transfers.all_transfers`, else
`matched_transfers.top_10_transfers`, else the legacy top-level
`transfers`; the count from `summary.total_count`, else the legacy
`detected_count`, else the length of the resolved list; the total from
`summary.total_amount`, else the legacy `total_amount`, else 0.  Default
arguments of `dict.get` are evaluated eagerly, exactly as Python does. -/
def inter_resolution (inter_account : Json) : Except String (Json × Json × Json) := do
  let matched ← pyGet inter_account "matched_transfers" (.obj [])
  let _unverified ← pyGet inter_account "unverified_transfers" (.obj [])
  let summary ← pyGet inter_account "summary" (.obj [])
  let t0 ← pyGet inter_account "transfers" (.arr [])
  let t1 ← pyGet matched "top_10_transfers" t0
  let inter_transfers ← pyGet matched "all_transfers" t1
  let l ← pyLen inter_transfers
  let d1 ← pyGet inter_account "detected_count" (.num l)
  let inter_count ← pyGet summary "total_count" d1
  let d2 ← pyGet inter_account "total_amount" (.num 0)
  let inter_total ← pyGet summary "total_amount" d2
  pure (inter_transfers, inter_count, inter_total)

/-- One inter-account transfer row (app.py lines 730-736). -/
def inter_row (t : Json) : Except String String := do
  let date ← pyGet t "date" (.str "")
  let if1 ← pyGet t "debit_account" (.str "")
  let from0 ← pyGet t "from_account" if1
  let from8 ← pySliceLast 8 from0
  let it1 ← pyGet t "credit_account" (.str "")
  let to0 ← pyGet t "to_account" it1
  let to8 ← pySliceLast 8 to0
  let amount_s ← pyFmtC2 (← pyGet t "amount" (.num 0))
  pure (interRowTpl (pyStr date) (pyStr from8) (pyStr to8) amount_s)

/-- The inter-account transfers section (app.py lines 729-751); the rows
are built unconditionally, the section renders only for a truthy list. -/
def inter_section_frag (transfers count total : Json) : Except String String := do
  let t10 ← pySliceTo 10 transfers
  let ts ← pyIter t10
  let rows ← ts.mapM inter_row
  let inter_rows := String.join rows
  if transfers.truthy then do
    let total_s ← pyFmtC0 total
    pure (interSectionTpl (pyStr count) total_s inter_rows)
  else pure ""

set_option maxRecDepth 4096 in
/-- Source `generate_interactive_html(data)` (app.py lines 51-1184): the
whole document compilation, with the clock made explicit (`now` stands for
`datetime.now().isoformat()`, whose only use is the footer's
`r.get('generated_at', ...)` default at line 1127; that read is resolved
here right after `r` is bound — any input on which it raises also raises at
the `company` read, and all modelled exceptions carry the same message, so
the hoisting is observationally neutral).  Values that the Python template
formats at interpolation time are formatted into strings here, in
template-slot order, before the final assembly. -/
def generate_interactive_html (data : Json) (now : String) : Except String String := do
  let schema_version ← detect_schema_version data
  let max_integrity_points := get_integrity_max_points schema_version
  let r ← pyGet data "report_info" (.obj [])
  let gline ← pyGet r "generated_at" (.str now)
  let gline_s := pyStr gline
  let accounts ← pyGet data "accounts" (.arr [])
  let consolidated ← pyGet data "consolidated" (.obj [])
  let categories ← pyGet data "categories" (.obj [])
  let volatility ← pyGet data "volatility" (.obj [])
  let flags0 ← pyGet data "flags" (.obj [])
  let flagged_for_review ← pyGet data "flagged_for_review" (.obj [])
  let flags := mergeFlaggedForReview flags0 flagged_for_review
  let kite ← pyGet data "kite_flying" (.obj [])
  let integrity ← pyGet data "integrity_score" (.obj [])
  let observations ← pyGet data "observations" (.obj [])
  let recommendations ← pyGet data "recommendations" (.arr [])
  let recurring ← pyGet data "recurring_payments" (.obj [])
  let non_bank ← pyGet data "non_bank_financing" (.obj [])
  let counterparties ← pyGet data "counterparties" (.obj [])
  let inter_account ← pyGet data "inter_account_transfers" (.obj [])
  let company ← pyGet r "company_name" (.str "Company")
  let period_start ← pyGet r "period_start" (.str "")
  let period_end ← pyGet r "period_end" (.str "")
  let total_months ← pyGet r "total_months" (.num 0)
  let related_parties ← pyGet r "related_parties" (.arr [])
  let gross ← pyGet consolidated "gross" (.obj [])
  let business ← pyGet consolidated "business_turnover" (.obj [])
  let exclusions ← pyGet consolidated "exclusions" (.obj [])
  let total_txns ← (do
    let as' ← pyIter accounts
    as'.foldlM (fun acc a => do pyAdd acc (← pyGet a "transaction_count" (.num 0))) (0 : Int))
  let int_score ← pyGet integrity "score" (.num 0)
  let int_rating ← pyGet integrity "rating" (.str "N/A")
  let kite_score ← pyGet kite "risk_score" (.num 0)
  let kite_level ← pyGet kite "risk_level" (.str "LOW")
  let vol_index ← pyGet volatility "overall_index" (.num 0)
  let vol_level ← pyGet volatility "overall_level" (.str "LOW")
  let round_fig ← pyGet flags "round_figure_transactions" (.obj [])
  let round_count ← pyGet round_fig "count" (.num 0)
  let returned_cheques ← pyGet flags "returned_cheques" (.obj [])
  let returned_count ← pyGet returned_cheques "count" (.num 0)
  let returned_assessment ← pyGet returned_cheques "assessment" (.str "ACCEPTABLE")
  let ge90 ← pyGeInt int_score 90
  let ge75 ← pyGeInt int_score 75
  let ge60 ← pyGeInt int_score 60
  let int_class := if ge90 then "excellent" else if ge75 then "good"
    else if ge60 then "warning" else "danger"
  let kite_class := if pyEq kite_level (.str "LOW") then "good"
    else if pyEq kite_level (.str "MEDIUM") then "warning" else "danger"
  let vol_class := if pyEq vol_level (.str "LOW") then "good"
    else if pyEq vol_level (.str "MODERATE") || pyEq vol_level (.str "HIGH") then "warning"
    else "danger"
  let acc_cards ← acc_cards_frag accounts
  let high_label := if schema_version == "5.0" then "Highest (Intraday)" else "Highest"
  let low_label := if schema_version == "5.0" then "Lowest (Intraday)" else "Lowest"
  let monthly_tables ← monthly_tables_frag schema_version high_label low_label accounts
  let credits_cat ← pyGet categories "credits" (.arr [])
  let debits_cat ← pyGet categories "debits" (.arr [])
  let has_categories := credits_cat.truthy || debits_cat.truthy
  let credits_rows ← cat_rows_frag true credits_cat
  let debits_rows ← cat_rows_frag false debits_cat
  let pos_obs ← obs_items_frag (← pyGet observations "positive" (.arr []))
  let con_obs ← obs_items_frag (← pyGet observations "concerns" (.arr []))
  let rec_html ← rec_html_frag recommendations
  let round_txns ← round_txns_resolve round_fig
  let round_js ← round_js_frag round_txns
  let round_note ← round_note_frag round_txns round_count
  let kite_rows ← kite_rows_frag kite kite_score round_count
  let vol_alerts ← build_vol_alerts volatility accounts
  let vol_alerts_html ← vol_alerts_html_frag vol_alerts
  let vol_method_note := if schema_version == "5.0" then volMethodNote else ""
  let credit_vals ← chart_vals_frag credits_cat "percentage" (.num 0)
  let credit_labels ← chart_vals_frag credits_cat "category" (.str "")
  let debit_vals ← chart_vals_frag debits_cat "percentage" (.num 0)
  let debit_labels ← chart_vals_frag debits_cat "category" (.str "")
  let vol_data_js ← vol_data_frag period_start accounts
  let int_checks ← pyGet integrity "checks" (.arr [])
  let int_rows ← int_rows_frag int_checks
  let exc_credits ← pyGet exclusions "credits" (.obj [])
  let rp_credit ← pyGet exc_credits "related_party" (.num 0)
  let exc_debits ← pyGet exclusions "debits" (.obj [])
  let rp_debit ← pyGet exc_debits "related_party" (.num 0)
  let rp_net ← pySub rp_credit rp_debit
  let rp_parties ← rp_parties_frag related_parties
  let exc_cr_inter := safe_exclusion_value (← pyGet exc_credits "inter_account" (.num 0))
  let exc_cr_related := safe_exclusion_value (← pyGet exc_credits "related_party" (.num 0))
  let exc_cr_reversals := safe_exclusion_value (← pyGet exc_credits "reversals" (.num 0))
  let exc_cr_loan := safe_exclusion_value (← pyGet exc_credits "loan_disbursement" (.num 0))
  let exc_cr_interest := safe_exclusion_value (← pyGet exc_credits "interest_fd_dividend" (.num 0))
  let exc_cr_total := safe_exclusion_value (← pyGet exc_credits "total" (.num 0))
  let exc_dr_inter := safe_exclusion_value (← pyGet exc_debits "inter_account" (.num 0))
  let exc_dr_related := safe_exclusion_value (← pyGet exc_debits "related_party" (.num 0))
  let exc_dr_returned := safe_exclusion_value (← pyGet exc_debits "returned_cheque" (.num 0))
  let exc_dr_total := safe_exclusion_value (← pyGet exc_debits "total" (.num 0))
  let recurring_tab ← recurring_tab_frag recurring total_months
  let nonbank_tab ← nonbank_tab_frag non_bank
  let counterparty_tab ← counterparty_tab_frag counterparties
  let returned_cheques_html ← returned_cheques_frag returned_cheques returned_count returned_assessment
  let itc ← inter_resolution inter_account
  let inter_transfers_section ← inter_section_frag itc.1 itc.2.1 itc.2.2
  let recurring_nav := if recurring.truthy then recurringNavBtn else ""
  let nonbank_nav := if non_bank.truthy then nonbankNavBtn else ""
  let counterparty_nav := counterparty_nav_frag counterparties
  let company_s := pyStr company
  let period_start_s := pyStr period_start
  let period_end_s := pyStr period_end
  let total_months_s := pyStr total_months
  let accounts_len_s := toString (← pyLen accounts)
  let total_txns_s := fmtComma total_txns
  let grossM_s ← pyFmtDivM (← pyGet gross "total_credits" (.num 0))
  let int_score_s := pyStr int_score
  let int_rating_s := pyStr int_rating
  let kite_score_s := pyStr kite_score
  let kite_level_s := pyStr kite_level
  let vol_index_s ← pyFmt0 vol_index
  let vol_level_s := pyStr vol_level
  let round_count_s := pyStr round_count
  let gross_credits_s ← pyFmtC2 (← pyGet gross "total_credits" (.num 0))
  let gross_debits_s ← pyFmtC2 (← pyGet gross "total_debits" (.num 0))
  let gnf ← pyGet gross "net_flow" (.num 0)
  let glt ← pyLtInt gnf 0
  let gross_nf_cls := if glt then "debit" else "credit"
  let gross_nf_s ← pyFmtC2 gnf
  let business_credits_s ← pyFmtC2 (← pyGet business "net_credits" (.num 0))
  let business_debits_s ← pyFmtC2 (← pyGet business "net_debits" (.num 0))
  let bnf ← pyGet business "net_flow" (.num 0)
  let blt ← pyLtInt bnf 0
  let business_nf_cls := if blt then "debit" else "credit"
  let business_nf_s ← pyFmtC2 bnf
  let exc_cr_inter_s ← pyFmtC2 exc_cr_inter
  let exc_cr_related_s ← pyFmtC2 exc_cr_related
  let exc_cr_reversals_s ← pyFmtC2 exc_cr_reversals
  let exc_cr_loan_s ← pyFmtC2 exc_cr_loan
  let exc_cr_interest_s ← pyFmtC2 exc_cr_interest
  let exc_cr_total_s ← pyFmtC2 exc_cr_total
  let exc_dr_inter_s ← pyFmtC2 exc_dr_inter
  let exc_dr_related_s ← pyFmtC2 exc_dr_related
  let exc_dr_returned_s ← pyFmtC2 exc_dr_returned
  let exc_dr_total_s ← pyFmtC2 exc_dr_total
  let categories_note := if !has_categories then categoriesNote else ""
  let vol_sum_color := if pyEq vol_level (.str "LOW") then "accent" else "warn"
  let vol_alerts_len_s := toString (← pyLen vol_alerts)
  let kite_sum_color := if pyEq kite_level (.str "LOW") then "accent" else "warn"
  let returned_color := if pyEq returned_count (.num 0) then "accent" else "danger"
  let returned_count_s := pyStr returned_count
  let int_sum_color := if ge90 then "accent" else if ge75 then "info" else "warn"
  let int_points ← pyGet integrity "points_earned" (.num 0)
  let int_points_s := pyStr int_points
  let max_points_s := toString max_integrity_points
  let rp_credit_s ← pyFmtC0 rp_credit
  let rp_debit_s ← pyFmtC0 rp_debit
  let rpge ← pyGeInt rp_net 0
  let rp_net_cls := if rpge then "accent" else "danger"
  let rp_net_s ← pyFmtC0 rp_net
  let related_len_s := toString (← pyLen related_parties)
  let rec_html_c := if rec_html == "" then recHtmlDefault else rec_html
  pure (mainTplA company_s schema_version period_start_s period_end_s total_months_s
          accounts_len_s total_txns_s grossM_s counterparty_nav recurring_nav nonbank_nav
          int_class int_score_s int_rating_s kite_class kite_score_s kite_level_s vol_class
          vol_index_s vol_level_s round_count_s acc_cards pos_obs con_obs monthly_tables
          gross_credits_s gross_debits_s gross_nf_cls gross_nf_s business_credits_s
          business_debits_s business_nf_cls business_nf_s exc_cr_inter_s exc_cr_related_s
          exc_cr_reversals_s exc_cr_loan_s exc_cr_interest_s exc_cr_total_s exc_dr_inter_s
          exc_dr_related_s exc_dr_returned_s exc_dr_total_s inter_transfers_section
          categories_note credits_rows debits_rows counterparty_tab vol_sum_color
          vol_alerts_len_s vol_method_note vol_alerts_html kite_sum_color returned_color
          returned_count_s kite_rows returned_cheques_html int_sum_color int_points_s
          max_points_s int_rows rp_credit_s rp_debit_s rp_net_cls rp_net_s related_len_s
          rp_parties recurring_tab nonbank_tab rec_html_c
        ++ (gline_s
        ++ mainTplB period_start_s period_end_s round_count_s round_note round_js
             credit_vals credit_labels debit_vals debit_labels vol_data_js))
-- raised elaboration limit for the large document-assembly definition above

/-! ## Helper lemmas for reasoning about the embedding -/

/-- Bind of a `pure` value reduces. -/
theorem exceptPureBind {α β : Type} (a : α) (f : α → Except String β) :
    (pure a : Except String α) >>= f = f a := rfl

/-- Bind of an `ok` value reduces. -/
theorem exceptOkBind {α β : Type} (a : α) (f : α → Except String β) :
    (Except.ok a : Except String α) >>= f = f a := rfl

/-- Bind of an error short-circuits. -/
theorem exceptErrBind {α β : Type} (e : String) (f : α → Except String β) :
    (Except.error e : Except String α) >>= f = Except.error e := rfl

/-- Pointwise-equal continuations give equal binds. -/
theorem exceptBindCongr {α β : Type} {e : Except String α}
    {f g : α → Except String β} (h : ∀ x, f x = g x) : e >>= f = e >>= g := by
  cases e with
  | error _ => rfl
  | ok a => exact h a

/-- A successful lookup makes the key test of `pyContains` succeed. -/
theorem any_key_of_lookup {fs : List (String × Json)} {k : String} {v : Json}
    (h : fs.lookup k = some v) : (fs.any fun kv => kv.1 == k) = true := by
  induction fs with
  | nil => simp [List.lookup] at h
  | cons a t ih =>
    rw [List.lookup] at h
    by_cases hk : k = a.1
    · simp [List.any, hk]
    · have : (k == a.1) = false := by simp [hk]
      rw [this] at h
      simp [List.any, ih h]

/-! ## Claim C4 — classifier rule 3 -/

/-- Classifier variant following the spec claim's words for rule 3
("whenever any account's first monthly entry contains an intraday-high
field"): rules 1, 2 and 4 as in the source, rule 3 quantified over every
account rather than only the first. -/
def detect_schema_version_claim (data : Json) : Except String String := do
  let ri ← pyGet data "report_info" (.obj [])
  let schema_version ← pyGet ri "schema_version" (.str "")
  let b ← pyStartsWith schema_version "5."
  if b then pure "5.0" else do
  let rp ← pyGet data "recurring_payments" .null
  let nb ← pyGet data "non_bank_financing" .null
  if rp.truthy || nb.truthy then pure "5.0" else do
  let accounts ← pyGet data "accounts" (.arr [])
  let as' := (match accounts with | .arr l => l | _ => [])
  let hit := as'.any fun a =>
    match a.lookup? "monthly_summary" with
    | some (.arr (m :: _)) => (m.lookup? "highest_intraday").isSome
    | _ => false
  if hit then pure "5.0" else pure "4.0"

/-- A document whose second (not first) account carries the intraday-high
marker in its first monthly entry. -/
def c4doc : Json :=
  .obj [("accounts", .arr
    [.obj [("monthly_summary", .arr [.obj []])],
     .obj [("monthly_summary", .arr [.obj [("highest_intraday", .num 1)]])]])]

/-- C4 counterexample: the source classifier inspects only the FIRST
account (app.py line 30, `accounts[0]`), so a document that is structurally
current only in its second account is classified `4.0`, while the claim's
"any account" rule would classify it `5.0`. -/
theorem C4_counterexample :
    detect_schema_version c4doc = Except.ok "4.0"
    ∧ detect_schema_version_claim c4doc = Except.ok "5.0" := by
  constructor <;> rfl

/-- C4 amended: the classifier applies its four rules in order with first
match winning, and rule 3 classifies a document as CURRENT when the FIRST
account's first monthly entry contains the intraday-high field, given that
the declared version string (possibly malformed, but a string) does not
match rule 1; rules 2 and 3 both yield CURRENT, so no rule-2 hypothesis is
needed. -/
theorem C4_first_account_rule (fs rfs afs mfs : List (String × Json)) (v : Json)
    (rest ms : List Json) (s : String)
    (h1 : fs.lookup "report_info" = some (.obj rfs))
    (h2 : rfs.lookup "schema_version" = some (.str s))
    (h3 : ("5.".data.isPrefixOf s.data) = false)
    (h6 : fs.lookup "accounts" = some (.arr (Json.obj afs :: rest)))
    (h7 : afs.lookup "monthly_summary" = some (.arr (Json.obj mfs :: ms)))
    (h8 : mfs.lookup "highest_intraday" = some v) :
    detect_schema_version (.obj fs) = Except.ok "5.0" := by
  simp [detect_schema_version, detect_rule2, detect_rule3, pyGet, h1, h2, h3,
        h6, h7, pyStartsWith, pyIndex0, pyContains, Json.truthy,
        exceptOkBind, any_key_of_lookup h8]

/-- C4 witness: a concrete mislabeled-but-structurally-current document
("4.9" version string, intraday field present in the first account). -/
theorem C4_witness :
    detect_schema_version (.obj
      [("report_info", .obj [("schema_version", .str "4.9")]),
       ("accounts", .arr [.obj [("monthly_summary",
          .arr [.obj [("highest_intraday", .num 7)]])]])]) = Except.ok "5.0" :=
  C4_first_account_rule
    [("report_info", .obj [("schema_version", .str "4.9")]),
     ("accounts", .arr [.obj [("monthly_summary",
        .arr [.obj [("highest_intraday", .num 7)]])]])]
    [("schema_version", .str "4.9")]
    [("monthly_summary", .arr [.obj [("highest_intraday", .num 7)]])]
    [("highest_intraday", .num 7)] (.num 7) [] [] "4.9"
    rfl rfl (by decide) rfl rfl rfl

/-! ## Claim C5 — classifier totality -/

/-- Shape condition on the declared version marker under which rule 1
cannot raise: `report_info`, when present, is an object whose
`schema_version`, when present, is a string. -/
def version_wf (fs : List (String × Json)) : Bool :=
  match fs.lookup "report_info" with
  | none => true
  | some (.obj rfs) =>
      (match rfs.lookup "schema_version" with
       | none => true
       | some (.str _) => true
       | some _ => false)
  | some _ => false

/-- Shape condition on `accounts` under which rule 3 cannot raise: absent
or falsy, or a list whose first element is an object whose
`monthly_summary` is absent, falsy, or a string or a list headed by an
object, string or list. -/
def accounts_wf (fs : List (String × Json)) : Bool :=
  match fs.lookup "accounts" with
  | none => true
  | some j =>
    if j.truthy then
      match j with
      | .arr (Json.obj afs :: _) =>
          (match afs.lookup "monthly_summary" with
           | none => true
           | some mj =>
             if mj.truthy then
               match mj with
               | .str _ => true
               | .arr (.obj _ :: _) => true
               | .arr (.str _ :: _) => true
               | .arr (.arr _ :: _) => true
               | _ => false
             else true)
      | _ => false
    else true

/-- The shapes on which the classifier provably cannot raise. -/
def classifier_wf (fs : List (String × Json)) : Bool :=
  version_wf fs && accounts_wf fs

/-- Rule 3 is total on well-shaped accounts (helper for C5). -/
theorem rule3_total (fs : List (String × Json)) (h2 : accounts_wf fs = true) :
    detect_rule3 (.obj fs) = .ok "5.0" ∨ detect_rule3 (.obj fs) = .ok "4.0" := by
  unfold accounts_wf at h2
  unfold detect_rule3
  rcases ha : fs.lookup "accounts" with _ | j
  · simp only [pyGet, ha, Option.getD, exceptOkBind, Json.truthy]
    exact Or.inr rfl
  · simp only [ha] at h2
    simp only [pyGet, ha, Option.getD, exceptOkBind]
    by_cases ht : j.truthy
    · rw [if_pos ht] at h2
      rw [if_pos ht]
      split at h2
      case _ afs tail =>
        simp only [pyIndex0, exceptOkBind]
        split at h2 <;> rename_i hm
        · simp only [pyGet, hm, Option.getD, exceptOkBind, Json.truthy]
          exact Or.inr rfl
        · rename_i mj
          simp only [pyGet, hm, Option.getD, exceptOkBind]
          by_cases hmt : mj.truthy
          · rw [if_pos hmt] at h2
            rw [if_pos hmt]
            split at h2
            case _ s =>
              simp only [pyIndex0]
              have hne : s.isEmpty = false := by
                rcases hh : s.isEmpty
                · rfl
                · exfalso
                  simp only [Json.truthy, hh] at hmt
                  exact absurd hmt (by simp)
              rw [if_neg (by simp [hne])]
              simp only [exceptOkBind, pyContains]
              split
              · exact Or.inl rfl
              · exact Or.inr rfl
            case _ fl tail =>
              simp only [pyIndex0, exceptOkBind, pyContains]
              split
              · exact Or.inl rfl
              · exact Or.inr rfl
            case _ st tail =>
              simp only [pyIndex0, exceptOkBind, pyContains]
              split
              · exact Or.inl rfl
              · exact Or.inr rfl
            case _ es tail =>
              simp only [pyIndex0, exceptOkBind, pyContains]
              split
              · exact Or.inl rfl
              · exact Or.inr rfl
            case _ => exact absurd h2 (by simp)
          · rw [if_neg hmt]
            exact Or.inr rfl
      all_goals exact absurd h2 (by simp)
    · rw [if_neg ht]
      exact Or.inr rfl

/-- Rules 2-4 are total on well-shaped accounts (helper for C5). -/
theorem rule2_total (fs : List (String × Json)) (h2 : accounts_wf fs = true) :
    detect_rule2 (.obj fs) = .ok "5.0" ∨ detect_rule2 (.obj fs) = .ok "4.0" := by
  unfold detect_rule2
  simp only [pyGet, exceptOkBind]
  split
  · exact Or.inl rfl
  · exact rule3_total fs h2

/-- Classifier totality on the well-shaped fragment (helper for C5). -/
theorem classifierTotalAux (fs : List (String × Json))
    (h : classifier_wf fs = true) :
    detect_schema_version (.obj fs) = .ok "5.0"
    ∨ detect_schema_version (.obj fs) = .ok "4.0" := by
  unfold classifier_wf at h
  rw [Bool.and_eq_true] at h
  obtain ⟨h1, h2⟩ := h
  unfold detect_schema_version
  unfold version_wf at h1
  split at h1
  · rename_i hri
    simp only [pyGet, hri, Option.getD, exceptOkBind, List.lookup, pyStartsWith]
    rw [if_neg (by decide)]
    exact rule2_total fs h2
  · rename_i rfs hri
    simp only [pyGet, hri, Option.getD, exceptOkBind]
    split at h1
    · rename_i hsv
      simp only [hsv, Option.getD, pyStartsWith, exceptOkBind]
      rw [if_neg (by decide)]
      exact rule2_total fs h2
    · rename_i t hsv
      simp only [hsv, Option.getD, pyStartsWith, exceptOkBind]
      split
      · exact Or.inl rfl
      · exact rule2_total fs h2
    · exact absurd h1 (by simp)
  · exact absurd h1 (by simp)

/-- An entirely marker-free document classifies as legacy (helper for C5). -/
theorem classifierDefaultAux (fs : List (String × Json))
    (hri : fs.lookup "report_info" = none)
    (hrp : fs.lookup "recurring_payments" = none)
    (hnb : fs.lookup "non_bank_financing" = none)
    (ha : fs.lookup "accounts" = none) :
    detect_schema_version (.obj fs) = .ok "4.0" := by
  simp only [detect_schema_version, detect_rule2, detect_rule3, pyGet, hri, hrp,
             hnb, ha, Option.getD, exceptOkBind, List.lookup, pyStartsWith]
  rw [if_neg (by decide)]
  simp only [Json.truthy, exceptOkBind]
  rfl

/-- C5 counterexample: a keyed document whose `schema_version` is a number
(a perfectly plausible JSON encoding of a version, e.g. `5`) makes the
classifier raise — Python evaluates `(5).startswith('5.')`, an
AttributeError — instead of defaulting to the legacy tag as the claim
states. -/
theorem C5_counterexample :
    detect_schema_version (.obj [("report_info", .obj [("schema_version", .num 5)])])
      = .error pyErr := by rfl

/-- C5 amended: on every keyed document whose `report_info` (if present) is
keyed with a string-or-absent `schema_version`, and whose `accounts` (if
present and truthy) is a list headed by a keyed account with a
well-shaped-or-absent `monthly_summary` (the `classifier_wf` condition),
the classifier never fails and returns one of the two tags; and a document
with none of the version markers present classifies as LEGACY (`"4.0"`). -/
theorem C5_total_on_wellshaped (fs : List (String × Json))
    (h : classifier_wf fs = true) :
    (detect_schema_version (.obj fs) = .ok "5.0"
     ∨ detect_schema_version (.obj fs) = .ok "4.0")
    ∧ (fs.lookup "report_info" = none → fs.lookup "recurring_payments" = none →
       fs.lookup "non_bank_financing" = none → fs.lookup "accounts" = none →
       detect_schema_version (.obj fs) = .ok "4.0") :=
  ⟨classifierTotalAux fs h, fun h1 h2 h3 h4 => classifierDefaultAux fs h1 h2 h3 h4⟩

/-- C5 witness: the amended theorem applied to a concrete marker-free
document. -/
theorem C5_witness :
    (detect_schema_version (.obj [("note", .str "n")]) = .ok "5.0"
     ∨ detect_schema_version (.obj [("note", .str "n")]) = .ok "4.0")
    ∧ (List.lookup "report_info" [("note", Json.str "n")] = none →
       List.lookup "recurring_payments" [("note", Json.str "n")] = none →
       List.lookup "non_bank_financing" [("note", Json.str "n")] = none →
       List.lookup "accounts" [("note", Json.str "n")] = none →
       detect_schema_version (.obj [("note", .str "n")]) = .ok "4.0") :=
  C5_total_on_wellshaped [("note", .str "n")] (by decide)

/-! ## Claim C6 — symmetric high/low fallback -/

/-- C6: monthly high/low resolution is a symmetric fallback.  Under the
CURRENT tag (`"5.0"`) the intraday-named field wins when present, else the
legacy-named field, else 0; under the LEGACY tag (`"4.0"`) the legacy-named
field wins when present, else the intraday-named field, else 0 — in
particular an entry carrying only the non-preferred name for its version
resolves to that value, never to the zero default.  Stated for both
`get_monthly_high` and `get_monthly_low`. -/
theorem C6_symmetric_fallback (fs : List (String × Json)) (x : Json) :
    ((fs.lookup "highest_intraday" = some x →
        get_monthly_high (.obj fs) "5.0" = .ok x)
     ∧ (fs.lookup "highest_intraday" = none → fs.lookup "highest" = some x →
        get_monthly_high (.obj fs) "5.0" = .ok x)
     ∧ (fs.lookup "highest_intraday" = none → fs.lookup "highest" = none →
        get_monthly_high (.obj fs) "5.0" = .ok (.num 0)))
    ∧ ((fs.lookup "highest" = some x →
        get_monthly_high (.obj fs) "4.0" = .ok x)
     ∧ (fs.lookup "highest" = none → fs.lookup "highest_intraday" = some x →
        get_monthly_high (.obj fs) "4.0" = .ok x)
     ∧ (fs.lookup "highest" = none → fs.lookup "highest_intraday" = none →
        get_monthly_high (.obj fs) "4.0" = .ok (.num 0)))
    ∧ ((fs.lookup "lowest_intraday" = some x →
        get_monthly_low (.obj fs) "5.0" = .ok x)
     ∧ (fs.lookup "lowest_intraday" = none → fs.lookup "lowest" = some x →
        get_monthly_low (.obj fs) "5.0" = .ok x)
     ∧ (fs.lookup "lowest_intraday" = none → fs.lookup "lowest" = none →
        get_monthly_low (.obj fs) "5.0" = .ok (.num 0)))
    ∧ ((fs.lookup "lowest" = some x →
        get_monthly_low (.obj fs) "4.0" = .ok x)
     ∧ (fs.lookup "lowest" = none → fs.lookup "lowest_intraday" = some x →
        get_monthly_low (.obj fs) "4.0" = .ok x)
     ∧ (fs.lookup "lowest" = none → fs.lookup "lowest_intraday" = none →
        get_monthly_low (.obj fs) "4.0" = .ok (.num 0))) := by
  refine ⟨⟨fun h1 => ?_, fun h1 h2 => ?_, fun h1 h2 => ?_⟩,
          ⟨fun h1 => ?_, fun h1 h2 => ?_, fun h1 h2 => ?_⟩,
          ⟨fun h1 => ?_, fun h1 h2 => ?_, fun h1 h2 => ?_⟩,
          ⟨fun h1 => ?_, fun h1 h2 => ?_, fun h1 h2 => ?_⟩⟩ <;>
    simp [get_monthly_high, get_monthly_low, pyGet, exceptOkBind, h1]
  all_goals simp [h2]

/-- C6 witness: concrete partially-modernized entries — a CURRENT-tagged
entry carrying only the legacy names resolves to them, and a LEGACY-tagged
entry carrying only the intraday name resolves to it. -/
theorem C6_witness :
    get_monthly_high (.obj [("highest", .num 7), ("lowest", .num 3)]) "5.0"
      = .ok (.num 7)
    ∧ get_monthly_low (.obj [("highest", .num 7), ("lowest", .num 3)]) "5.0"
      = .ok (.num 3)
    ∧ get_monthly_high (.obj [("highest_intraday", .num 9)]) "4.0"
      = .ok (.num 9) :=
  ⟨((C6_symmetric_fallback [("highest", .num 7), ("lowest", .num 3)]
      (.num 7)).1.2.1 rfl rfl),
   ((C6_symmetric_fallback [("highest", .num 7), ("lowest", .num 3)]
      (.num 3)).2.2.1.2.1 rfl rfl),
   ((C6_symmetric_fallback [("highest_intraday", .num 9)]
      (.num 9)).2.1.2.1 rfl rfl)⟩

/-! ## Claim C7 — dedup stability -/

/-- Each dedup iteration either drops the source (seen inflow) or appends
it at the end (helper for C7). -/
theorem dedup_step_cases (st : List Json × List Json) (s : Json)
    (st' : List Json × List Json) (h : dedup_step st s = .ok st') :
    st'.2 = st.2 ∨ st'.2 = st.2 ++ [s] := by
  unfold dedup_step at h
  cases hg : pyGet s "total_inflow" (.num 0) with
  | error e => rw [hg] at h; exact absurd h (by simp [exceptErrBind])
  | ok amount =>
      rw [hg] at h
      rw [exceptOkBind] at h
      cases hh : pyHashable amount with
      | error e => rw [hh] at h; exact absurd h (by simp [exceptErrBind])
      | ok u =>
          rw [hh] at h
          rw [exceptOkBind] at h
          split at h
          · left
            cases h
            rfl
          · right
            cases h
            rfl

/-- The dedup fold appends a subsequence of its input, in input order
(helper for C7). -/
theorem dedup_fold_sublist (ss : List Json) :
    ∀ st st' : List Json × List Json, ss.foldlM dedup_step st = .ok st' →
      ∃ t : List Json, t.Sublist ss ∧ st'.2 = st.2 ++ t := by
  induction ss with
  | nil =>
      intro st st' h
      refine ⟨[], by simp, ?_⟩
      have : st = st' := by
        rw [List.foldlM] at h
        exact Except.ok.inj h
      simp [this]
  | cons s rest ih =>
      intro st st' h
      rw [List.foldlM] at h
      cases hs : dedup_step st s with
      | error e => rw [hs] at h; exact absurd h (by simp [exceptErrBind])
      | ok st1 =>
          rw [hs] at h
          rw [exceptOkBind] at h
          obtain ⟨t, hts, he⟩ := ih st1 st' h
          rcases dedup_step_cases st s st1 hs with h1 | h1
          · exact ⟨t, List.Sublist.cons s hts, by rw [he, h1]⟩
          · exact ⟨s :: t, List.Sublist.cons₂ s hts, by rw [he, h1]; simp⟩

/-- C7: non-bank financing sources are deduplicated by inflow amount with
first-seen order preserved: on the claim's list `[A(100), B(100), C(200)]`
the resolved unique list is exactly `[A(100), C(200)]`, and in general the
deduplicated list is a subsequence of the input (order preserved, first
occurrence of each repeated inflow kept). -/
theorem C7_dedup_scenario :
    (dedup_sources
      [.obj [("source_type", .str "A"), ("total_inflow", .num 100)],
       .obj [("source_type", .str "B"), ("total_inflow", .num 100)],
       .obj [("source_type", .str "C"), ("total_inflow", .num 200)]]
    = .ok [.obj [("source_type", .str "A"), ("total_inflow", .num 100)],
           .obj [("source_type", .str "C"), ("total_inflow", .num 200)]])
    ∧ (∀ ss us : List Json, dedup_sources ss = .ok us → us.Sublist ss) := by
  constructor
  · rfl
  · intro ss us h
    unfold dedup_sources at h
    cases hf : ss.foldlM dedup_step ([], []) with
    | error e => rw [hf] at h; exact absurd h (by simp [exceptErrBind])
    | ok st =>
        rw [hf] at h
        rw [exceptOkBind] at h
        obtain ⟨t, hts, he⟩ := dedup_fold_sublist ss ([], []) st hf
        cases h
        simpa [he] using hts

/-- C7 witness: the general order-preservation conjunct applied at the
claim's concrete list. -/
theorem C7_witness :
    List.Sublist
      [Json.obj [("source_type", .str "A"), ("total_inflow", .num 100)],
       Json.obj [("source_type", .str "C"), ("total_inflow", .num 200)]]
      [Json.obj [("source_type", .str "A"), ("total_inflow", .num 100)],
       Json.obj [("source_type", .str "B"), ("total_inflow", .num 100)],
       Json.obj [("source_type", .str "C"), ("total_inflow", .num 200)]] :=
  C7_dedup_scenario.2
    [.obj [("source_type", .str "A"), ("total_inflow", .num 100)],
     .obj [("source_type", .str "B"), ("total_inflow", .num 100)],
     .obj [("source_type", .str "C"), ("total_inflow", .num 200)]]
    [.obj [("source_type", .str "A"), ("total_inflow", .num 100)],
     .obj [("source_type", .str "C"), ("total_inflow", .num 200)]]
    (by rfl)

/-! ## Claim C3 — inter-account transfer resolution -/

/-- Transfer-total resolution following the claim's words: summary total,
else legacy top-level total, else the SUM of the resolved transfer list's
amounts (the source instead falls back to 0; compare
`inter_resolution`). -/
def inter_total_claim (inter_account : Json) : Except String Json := do
  let matched ← pyGet inter_account "matched_transfers" (.obj [])
  let summary ← pyGet inter_account "summary" (.obj [])
  let t0 ← pyGet inter_account "transfers" (.arr [])
  let t1 ← pyGet matched "top_10_transfers" t0
  let transfers ← pyGet matched "all_transfers" t1
  let ts ← pyIter transfers
  let total ← ts.foldlM (fun acc t => do pyAdd acc (← pyGet t "amount" (.num 0))) (0 : Int)
  let d2 ← pyGet inter_account "total_amount" (.num total)
  pyGet summary "total_amount" d2

/-- A document with one legacy transfer of amount 100 and no summary or
totals. -/
def c3doc : Json := .obj [("transfers", .arr [.obj [("amount", .num 100)]])]

/-- C3 counterexample: with no summary and no legacy `total_amount`, the
source resolves the total to 0 (app.py line 727), not to the 100 obtained
by summing the resolved transfer list as the claim's final fallback
states; the count fallback (here: the list length 1) does count the
list. -/
theorem C3_counterexample :
    inter_resolution c3doc
      = .ok (.arr [.obj [("amount", .num 100)]], .num 1, .num 0)
    ∧ inter_total_claim c3doc = .ok (.num 100) := by
  constructor <;> rfl

/-- C3 amended: the transfer list is resolved from
`matched_transfers.all_transfers`, else `matched_transfers.top_10_transfers`,
else the legacy top-level `transfers`; the count from `summary.total_count`,
else legacy `detected_count`, else the length of the resolved list; the
total from `summary.total_amount`, else legacy `total_amount`, else 0 (not
the list's sum). -/
theorem C3_resolution_chain (fs mfs sfs : List (String × Json)) (ts : List Json)
    (hm : (fs.lookup "matched_transfers").getD (.obj []) = .obj mfs)
    (hs : (fs.lookup "summary").getD (.obj []) = .obj sfs)
    (ht : (mfs.lookup "all_transfers").getD
            ((mfs.lookup "top_10_transfers").getD
              ((fs.lookup "transfers").getD (.arr []))) = .arr ts) :
    inter_resolution (.obj fs) = .ok (.arr ts,
      (sfs.lookup "total_count").getD
        ((fs.lookup "detected_count").getD (.num ts.length)),
      (sfs.lookup "total_amount").getD
        ((fs.lookup "total_amount").getD (.num 0))) := by
  unfold inter_resolution
  simp only [pyGet, exceptOkBind, hm, hs, ht, pyLen]
  rfl

/-- C3 witness: the amended chain applied to a concrete v5.1-shaped
document carrying all three levels of the fallback. -/
theorem C3_witness :
    inter_resolution (.obj
      [("matched_transfers", .obj [("all_transfers", .arr [.obj [("amount", .num 5)]])]),
       ("summary", .obj [("total_count", .num 9), ("total_amount", .num 45)])])
    = .ok (.arr [.obj [("amount", .num 5)]], .num 9, .num 45) :=
  C3_resolution_chain
    [("matched_transfers", .obj [("all_transfers", .arr [.obj [("amount", .num 5)]])]),
     ("summary", .obj [("total_count", .num 9), ("total_amount", .num 45)])]
    [("all_transfers", .arr [.obj [("amount", .num 5)]])]
    [("total_count", .num 9), ("total_amount", .num 45)]
    [.obj [("amount", .num 5)]] rfl rfl rfl

/-! ## Claim C9 — optional counterparty section omission -/

/-- C9: for a keyed document with no `counterparties` key, the compiler's
read of that key yields the falsy empty object, and both the counterparty
navigation entry and the counterparty tab markup render as the empty
string — `generate_interactive_html` interpolates exactly these two
fragments into the `counterparty_nav` and `counterparty_tab` slots of the
document template, so the compiled document carries no counterparty
navigation entry and no counterparty section markup. -/
theorem C9_optional_omission (fs : List (String × Json))
    (h : fs.lookup "counterparties" = none) :
    pyGet (.obj fs) "counterparties" (.obj []) = .ok (.obj [])
    ∧ counterparty_nav_frag (.obj []) = ""
    ∧ counterparty_tab_frag (.obj []) = .ok "" :=
  ⟨by simp [pyGet, h], rfl, rfl⟩

/-- C9 witness: the omission theorem at a concrete document without the
`counterparties` key. -/
theorem C9_witness :
    pyGet (.obj [("accounts", Json.arr [])]) "counterparties" (.obj []) = .ok (.obj [])
    ∧ counterparty_nav_frag (.obj []) = ""
    ∧ counterparty_tab_frag (.obj []) = .ok "" :=
  C9_optional_omission [("accounts", Json.arr [])] rfl

/-! ## Claim C8 — volatility alert synthesis -/

/-- A well-shaped monthly entry for the alert-synthesis statement: display
name, volatility percentage and level. -/
structure MonthEnc where
  month : String
  pct : Int
  level : String

/-- A well-shaped account for the alert-synthesis statement: bank name and
monthly entries. -/
structure AcctEnc where
  bank : String
  months : List MonthEnc

/-- JSON encoding of a `MonthEnc`. -/
def encodeMonth (m : MonthEnc) : Json :=
  .obj [("month_name", .str m.month), ("volatility_pct", .num m.pct),
        ("volatility_level", .str m.level)]

/-- JSON encoding of an `AcctEnc`. -/
def encodeAcct (a : AcctEnc) : Json :=
  .obj [("bank_name", .str a.bank),
        ("monthly_summary", .arr (a.months.map encodeMonth))]

/-- The claim's per-month alert line: one line exactly when the level is
HIGH or EXTREME, formatted `"{month} ({bank}): {pct}% volatility - {level}"`
with the percentage rendered as an integer. -/
def monthLine (bank : String) (m : MonthEnc) : Option String :=
  if m.level = "HIGH" ∨ m.level = "EXTREME" then
    some (m.month ++ " (" ++ bank ++ "): " ++ toString m.pct
          ++ "% volatility - " ++ m.level)
  else none

/-- The claim's derived alert list: one `monthLine` per qualifying
account-month, in account-then-month order. -/
def vol_alerts_claim (as' : List AcctEnc) : List String :=
  as'.flatMap fun a => a.months.filterMap (monthLine a.bank)

/-- One synthesis step on an encoded month matches `monthLine` (helper for
C8). -/
theorem vol_alert_month_enc (a : Json) (bank : String)
    (hb : pyGet a "bank_name" (.str "") = .ok (.str bank))
    (m : MonthEnc) (acc : List String) :
    vol_alert_month a (.arr (acc.map Json.str)) (encodeMonth m)
      = .ok (.arr ((acc ++ (monthLine bank m).toList).map Json.str)) := by
  have e1 : pyGet (encodeMonth m) "volatility_level" (.str "LOW") = .ok (.str m.level) := rfl
  have e2 : pyGet (encodeMonth m) "volatility_pct" (.num 0) = .ok (.num m.pct) := rfl
  have e3 : pyGet (encodeMonth m) "month" (.str "") = .ok (.str "") := rfl
  have e4 : pyGet (encodeMonth m) "month_name" (.str "") = .ok (.str m.month) := rfl
  unfold vol_alert_month
  rw [e1, exceptOkBind, e2, exceptOkBind, e3, exceptOkBind, e4, exceptOkBind]
  by_cases hc : m.level = "HIGH" ∨ m.level = "EXTREME"
  · rw [if_pos (by rcases hc with h | h <;> simp [pyEq, h])]
    rw [hb, exceptOkBind]
    have e5 : pyFmt0 (Json.num m.pct) = .ok (toString m.pct) := rfl
    rw [e5, exceptOkBind]
    unfold monthLine
    rw [if_pos hc]
    simp [pyAppend, pyStr, volAlertLineTpl]
  · rw [if_neg ?_]
    · unfold monthLine
      rw [if_neg hc]
      simp only [Option.toList, List.append_nil]
      rfl
    · push_neg at hc
      simp [pyEq, hc.1, hc.2]

/-- The month fold collects exactly the claim's lines (helper for C8). -/
theorem vol_fold_month (a : Json) (bank : String)
    (hb : pyGet a "bank_name" (.str "") = .ok (.str bank))
    (ms : List MonthEnc) :
    ∀ acc : List String,
      (ms.map encodeMonth).foldlM (vol_alert_month a) (.arr (acc.map Json.str))
      = .ok (.arr ((acc ++ ms.filterMap (monthLine bank)).map Json.str)) := by
  induction ms with
  | nil => intro acc; simp [List.foldlM]; rfl
  | cons m rest ih =>
      intro acc
      rw [List.map, List.foldlM]
      rw [vol_alert_month_enc a bank hb m acc, exceptOkBind, ih]
      rcases hml : monthLine bank m with _ | l <;>
        simp [List.filterMap_cons, hml, Option.toList]

/-- The account fold collects the claim's lines in account order (helper
for C8). -/
theorem vol_fold_acct (as' : List AcctEnc) :
    ∀ acc : List String,
      (as'.map encodeAcct).foldlM vol_alert_account (.arr (acc.map Json.str))
      = .ok (.arr ((acc ++ vol_alerts_claim as').map Json.str)) := by
  induction as' with
  | nil => intro acc; simp [List.foldlM, vol_alerts_claim]; rfl
  | cons a rest ih =>
      intro acc
      rw [List.map, List.foldlM]
      have hstep : vol_alert_account (.arr (acc.map Json.str)) (encodeAcct a)
          = .ok (.arr ((acc ++ a.months.filterMap (monthLine a.bank)).map Json.str)) := by
        unfold vol_alert_account
        have em : pyGet (encodeAcct a) "monthly_summary" (.arr [])
            = .ok (.arr (a.months.map encodeMonth)) := rfl
        rw [em, exceptOkBind]
        have hi : pyIter (.arr (a.months.map encodeMonth))
            = .ok (a.months.map encodeMonth) := rfl
        rw [hi, exceptOkBind]
        exact vol_fold_month (encodeAcct a) a.bank rfl a.months acc
      rw [hstep, exceptOkBind, ih]
      simp [vol_alerts_claim, List.append_assoc]

/-- C8: when `volatility` supplies no alert list, the derived alert list is
exactly one line per account-month whose level is HIGH or EXTREME, in
account-then-month order, formatted
`"{month} ({bank}): {pct}% volatility - {level}"` with the percentage
rendered as an integer (`vol_alerts_claim`). -/
theorem C8_alert_synthesis (vfs : List (String × Json)) (as' : List AcctEnc)
    (h : vfs.lookup "alerts" = none) :
    build_vol_alerts (.obj vfs) (.arr (as'.map encodeAcct))
      = .ok (.arr ((vol_alerts_claim as').map Json.str)) := by
  unfold build_vol_alerts
  simp only [pyGet, h, Option.getD, exceptOkBind]
  rw [if_neg (by simp [Json.truthy])]
  simp only [pyIter, exceptOkBind]
  have := vol_fold_acct as' []
  simpa using this

/-- C8 witness: the claim's concrete scenario — one HIGH month at 150%
named "Jun 2024" for bank "Alpha" and one LOW month, no supplied alerts —
derives exactly `["Jun 2024 (Alpha): 150% volatility - HIGH"]`. -/
theorem C8_witness :
    build_vol_alerts (.obj [("overall_index", .num 0)])
      (.arr (List.map encodeAcct
        [⟨"Alpha", [⟨"Jun 2024", 150, "HIGH"⟩, ⟨"Jul 2024", 20, "LOW"⟩]⟩]))
      = .ok (.arr (List.map Json.str ["Jun 2024 (Alpha): 150% volatility - HIGH"])) := by
  rw [C8_alert_synthesis [("overall_index", .num 0)]
        [⟨"Alpha", [⟨"Jun 2024", 150, "HIGH"⟩, ⟨"Jul 2024", 20, "LOW"⟩]⟩] rfl]
  rfl

/-! ## Claim C10 — kite-flying indicator dispatch -/


/-- The structured kite-flying row as the claim reads it: every field read
by key from the element (helper for C10). -/
def structRowOk (f : List (String × Json)) : String :=
  let status := (f.lookup "status").getD (.str "PASS")
  let status_class := if pyEq status (.str "PASS") then "LOW"
    else if pyEq status (.str "MONITOR") || pyEq status (.str "WARNING") then "MODERATE"
    else "EXTREME"
  kiteRowTpl (pyStr ((f.lookup "indicator").getD (.str ""))) status_class
    (pyStr status) (pyStr ((f.lookup "points").getD (.num 0)))
    (pyStr ((f.lookup "finding").getD (.str "")))

/-- A keyed element renders as `structRowOk` (helper for C10). -/
theorem kite_struct_row_obj (f : List (String × Json)) :
    kite_struct_row (.obj f) = .ok (structRowOk f) := rfl

/-- An all-keyed indicator list renders row by row (helper for C10). -/
theorem kite_struct_mapM (fss : List (List (String × Json))) :
    (fss.map Json.obj).mapM kite_struct_row = .ok (fss.map structRowOk) := by
  induction fss with
  | nil => rfl
  | cons f rest ih =>
      rw [List.map, List.mapM_cons, kite_struct_row_obj]
      simp only [ih]
      rfl

/-- A structured indicator row is never the empty string (helper for
C10). -/
theorem kiteRowTpl_ne (a b c d e : String) : kiteRowTpl a b c d e ≠ "" := by
  intro h
  have hl := congrArg String.length h
  simp [kiteRowTpl, String.length_append] at hl
  exact absurd hl.2 (by decide)

/-- A string-format indicator row is never the empty string (helper for
C10). -/
theorem kiteRowStrTpl_ne (a b c d : String) : kiteRowStrTpl a b c d ≠ "" := by
  intro h
  have hl := congrArg String.length h
  simp [kiteRowStrTpl, String.length_append] at hl
  exact absurd hl.2 (by decide)

/-- Folding append never shortens a string (helper for C10). -/
theorem foldl_append_len (rs : List String) :
    ∀ s : String, s.length ≤ (rs.foldl (· ++ ·) s).length := by
  induction rs with
  | nil => intro s; simp [List.foldl]
  | cons r rest ih =>
      intro s
      rw [List.foldl]
      calc s.length ≤ (s ++ r).length := by simp [String.length_append]
        _ ≤ _ := ih (s ++ r)

/-- A string of length zero is empty (helper for C10). -/
theorem str_len_zero (s : String) (h : s.length = 0) : s = "" := by
  cases s with
  | mk data =>
      cases data with
      | nil => rfl
      | cons c cs => simp [String.length] at h

/-- Joining a nonempty row onto further rows is never empty (helper for
C10). -/
theorem join_rows_ne (r : String) (rs : List String) (h : r ≠ "") :
    String.join (r :: rs) ≠ "" := by
  intro hh
  apply h
  have h1 : ("" ++ r).length ≤ (String.join (r :: rs)).length := by
    rw [String.join]
    exact foldl_append_len rs ("" ++ r)
  rw [hh] at h1
  apply str_len_zero
  have : r.length ≤ 0 := by simpa [String.length_append] using h1
  exact Nat.le_zero.mp this

/-- The string-format kite-flying row as the claim reads it: a uniform
status derived from the aggregate score, the positional detailed finding
when one exists (helper for C10). -/
def strRowOk (k : Int) (df : List Json) (idx : Nat) (x : Json) : String :=
  let finding := if idx < df.length then (df.get? idx).getD x else x
  kiteRowStrTpl (pyStr x) (if k > 0 then "MODERATE" else "LOW")
    (if k > 0 then "WARNING" else "PASS") (pyStr finding)

/-- A string-branch element renders as `strRowOk` (helper for C10). -/
theorem kite_str_row_arr (k : Int) (df : List Json) (idx : Nat) (x : Json) :
    kite_str_row (.num k) (.arr df) idx x = .ok (strRowOk k df idx x) := by
  unfold kite_str_row strRowOk
  simp only [pyLen, exceptOkBind]
  by_cases hi : idx < df.length
  · rw [if_pos hi]
    simp only [pyIndexAt, List.get?_eq_get hi, exceptOkBind, pyGtInt, pyToInt,
               Option.getD, if_pos hi]
    by_cases hk : k > 0 <;> simp [hk, exceptOkBind] <;> rfl
  · rw [if_neg hi]
    simp only [exceptOkBind, pyGtInt, pyToInt, if_neg hi]
    by_cases hk : k > 0 <;> simp [hk, exceptOkBind] <;> rfl

/-- The string branch renders every element, whatever its type (helper for
C10). -/
theorem kite_str_mapM (k : Int) (df : List Json) (xs : List Json) :
    ∀ n : Nat, (List.enumFrom n xs).mapM
        (fun is' => kite_str_row (.num k) (.arr df) is'.1 is'.2)
      = .ok ((List.enumFrom n xs).map fun is' => strRowOk k df is'.1 is'.2) := by
  induction xs with
  | nil => intro n; rfl
  | cons x rest ih =>
      intro n
      rw [List.enumFrom, List.mapM_cons, kite_str_row_arr]
      simp only [ih (n + 1)]
      rfl

/-- The seven synthesized default checks as the claim lists them, with the
round-amount check flagged WARNING when the round-figure count exceeds 5
(helper for C10). -/
def default_rows_claim (n : Int) : String :=
  String.join
    [kiteRowTpl "Circular Transfers" "LOW" "PASS" "0" "No A→B→A patterns detected",
     kiteRowTpl "Month-End Concentration" "LOW" "PASS" "0" "Normal distribution",
     kiteRowTpl "Round Amount Patterns" (if n > 5 then "MODERATE" else "LOW")
       (if n > 5 then "WARNING" else "PASS") (if n > 5 then "2" else "0")
       (roundFindingTpl (toString n)),
     kiteRowTpl "Timing Exploitation" "LOW" "PASS" "0" "No suspicious timing patterns",
     kiteRowTpl "Suspicious Balance Spikes" "LOW" "PASS" "0"
       "Balance movements within normal range",
     kiteRowTpl "Same Amount In/Out" "LOW" "PASS" "0"
       "No matching in/out amounts detected",
     kiteRowTpl "Vague Descriptions" "LOW" "PASS" "0"
       "Transaction descriptions are clear"]

/-- The default-row builder renders `default_rows_claim` (helper for
C10). -/
theorem kite_default_rows_num (n : Int) :
    kite_default_rows (.num n) = .ok (default_rows_claim n) := by
  unfold kite_default_rows default_rows_claim
  simp only [pyGtInt, pyToInt, exceptOkBind]
  by_cases hk : n > 5 <;> simp [hk, pyStr, pyRepr, roundFindingTpl] <;> rfl

/-- An element that is neither a keyed object nor a string (helper for
C10). -/
def neitherShape : Json → Bool
  | .obj _ => false
  | .str _ => false
  | _ => true

/-- A structured claim-row is nonempty (helper for C10). -/
theorem structRowOk_ne (f : List (String × Json)) : structRowOk f ≠ "" := by
  unfold structRowOk
  apply kiteRowTpl_ne

/-- A string-format claim-row is nonempty (helper for C10). -/
theorem strRowOk_ne (k : Int) (df : List Json) (idx : Nat) (x : Json) :
    strRowOk k df idx x ≠ "" := by
  unfold strRowOk
  apply kiteRowStrTpl_ne

/-- C10 amended: the indicator table's row format is decided solely by the
type of the list's first element, with these provisos forced by the
counterexample: (1) when the first element is keyed and EVERY element is
keyed, each renders as a structured row read by key (a non-keyed later
element instead aborts the compilation — `C10_counterexample`); (2) when
the first element is a string, every element (of any type) renders as a
string-form row with a uniform status, WARNING exactly when the numeric
aggregate risk score is positive; (3) when the list is empty, absent, or
headed by an element of neither shape, the seven synthesized default
checks render instead. -/
theorem C10_first_element_dispatch :
    (∀ (kfs f0 : List (String × Json)) (fss : List (List (String × Json)))
       (ks rc : Json),
       kfs.lookup "indicators" = some (.arr (List.map Json.obj (f0 :: fss))) →
       kite_rows_frag (.obj kfs) ks rc
         = .ok (String.join ((f0 :: fss).map structRowOk)))
    ∧ (∀ (kfs : List (String × Json)) (s0 : String) (rest df : List Json)
         (k : Int) (rc : Json),
         kfs.lookup "indicators" = some (.arr (Json.str s0 :: rest)) →
         (kfs.lookup "detailed_findings").getD (.arr []) = .arr df →
         kite_rows_frag (.obj kfs) (.num k) rc
           = .ok (String.join ((List.enum (Json.str s0 :: rest)).map
               fun is' => strRowOk k df is'.1 is'.2)))
    ∧ (∀ (kfs : List (String × Json)) (ks : Json) (n : Int),
         ((kfs.lookup "indicators").getD (.arr []) = .arr []
          ∨ ∃ v vs, (kfs.lookup "indicators").getD (.arr []) = .arr (v :: vs)
              ∧ neitherShape v = true) →
         kite_rows_frag (.obj kfs) ks (.num n) = .ok (default_rows_claim n)) := by
  refine ⟨fun kfs f0 fss ks rc h => ?_, fun kfs s0 rest df k rc h h2 => ?_,
          fun kfs ks n h => ?_⟩
  · unfold kite_rows_frag
    simp only [pyGet, h, Option.getD, exceptOkBind, List.map]
    rw [if_pos (by simp [Json.truthy])]
    simp only [pyIndex0, exceptOkBind, pyIter]
    rw [show (Json.obj f0 :: List.map Json.obj fss).mapM kite_struct_row
          = .ok ((f0 :: fss).map structRowOk) from kite_struct_mapM (f0 :: fss)]
    simp only [exceptOkBind, exceptPureBind]
    rw [if_neg ?_]
    · rfl
    · simp only [List.map]
      have := join_rows_ne (structRowOk f0) (fss.map structRowOk) (structRowOk_ne f0)
      simp [this]
  · unfold kite_rows_frag
    simp only [pyGet, h, Option.getD_some, exceptOkBind]
    rw [if_pos (by simp [Json.truthy])]
    simp only [pyIndex0, exceptOkBind]
    rw [h2]
    simp only [pyIter, exceptOkBind]
    rw [show List.enum (Json.str s0 :: rest) = List.enumFrom 0 (Json.str s0 :: rest) from rfl]
    rw [kite_str_mapM k df (Json.str s0 :: rest) 0]
    simp only [exceptOkBind, exceptPureBind]
    rw [if_neg ?_]
    · rfl
    · rw [List.enumFrom, List.map]
      have := join_rows_ne (strRowOk k df 0 (Json.str s0))
        ((List.enumFrom 1 rest).map fun is' => strRowOk k df is'.1 is'.2)
        (strRowOk_ne k df 0 (Json.str s0))
      simp [this]
  · unfold kite_rows_frag
    rcases h with h | ⟨v, vs, h, hv⟩
    · rcases hl : kfs.lookup "indicators" with _ | j
      · simp only [pyGet, hl, Option.getD, exceptOkBind, exceptPureBind, Json.truthy]
        rw [if_neg (by simp)]
        simp only [exceptOkBind, exceptPureBind]
        rw [if_pos (show ("" == "") = true from rfl)]
        exact kite_default_rows_num n
      · rw [hl] at h
        simp only [Option.getD] at h
        subst h
        simp only [pyGet, hl, Option.getD, exceptOkBind, exceptPureBind, Json.truthy]
        rw [if_neg (by simp)]
        simp only [exceptOkBind, exceptPureBind]
        rw [if_pos (show ("" == "") = true from rfl)]
        exact kite_default_rows_num n
    · rcases hl : kfs.lookup "indicators" with _ | j
      · rw [hl] at h
        simp at h
      · rw [hl] at h
        simp only [Option.getD] at h
        subst h
        simp only [pyGet, hl, Option.getD, exceptOkBind]
        rw [if_pos (by simp [Json.truthy])]
        simp only [pyIndex0, exceptOkBind]
        rcases v with _ | b | m | s' | el | ofs <;> simp only [neitherShape] at hv <;>
          first
          | (simp only [exceptOkBind, exceptPureBind]
             rw [if_pos (show ("" == "") = true from rfl)]
             exact kite_default_rows_num n)
          | exact absurd hv (by simp)

/-- C10 counterexample: a mixed indicator list whose first element is keyed
but whose second is a string makes the structured branch read `.get` on a
string — the compilation raises (AttributeError) instead of rendering every
element as the claim states. -/
theorem C10_counterexample :
    kite_rows_frag (.obj [("indicators", .arr [.obj [], .str "x"])])
      (.num 0) (.num 0) = .error pyErr := by rfl

/-- C10 witness: the three dispatch branches applied at concrete inputs —
an all-keyed singleton list, a string-headed list, and an absent list. -/
theorem C10_witness :
    kite_rows_frag (.obj [("indicators",
        .arr (List.map Json.obj [[("indicator", .str "X")]]))]) (.num 0) (.num 0)
      = .ok (String.join (List.map structRowOk [[("indicator", .str "X")]]))
    ∧ kite_rows_frag (.obj [("indicators", .arr [.str "ind"])]) (.num 3) (.num 0)
      = .ok (String.join ((List.enum [Json.str "ind"]).map
          fun is' => strRowOk 3 [] is'.1 is'.2))
    ∧ kite_rows_frag (.obj []) (.num 0) (.num 0) = .ok (default_rows_claim 0) :=
  ⟨C10_first_element_dispatch.1 [("indicators",
      .arr (List.map Json.obj [[("indicator", .str "X")]]))]
      [("indicator", .str "X")] [] (.num 0) (.num 0) rfl,
   C10_first_element_dispatch.2.1 [("indicators", .arr [.str "ind"])]
      "ind" [] [] 3 (.num 0) rfl rfl,
   C10_first_element_dispatch.2.2 [] (.num 0) 0 (Or.inl rfl)⟩

/-! ### Claims C1 and C2: determinism of rendering, and (non-)escaping of
interpolated text.

The compilation of the empty document factors, definitionally, as a fixed
prefix depending only on the company string, followed by the `now` argument
(the embedding of `datetime.now().isoformat()`), followed by a fixed suffix.
The two definitions below spell out the fixed parts: each is `mainTplA` /
`mainTplB` applied to the concrete strings all the intermediate fragment
builders produce on an empty document. -/

/-- The part of the compiled empty document before the `generated_at` slot,
parameterised by the company name (every other argument of `mainTplA` is the
concrete value computed for the empty document `\x7b\x7d`). -/
def genEmptyPre (company : String) : String :=
  mainTplA company
    "4.0"
    ""
    ""
    "0"
    "0"
    "0"
    "0.00"
    ""
    ""
    ""
    "danger"
    "0"
    "N/A"
    "good"
    "0"
    "LOW"
    "good"
    "0"
    "LOW"
    "0"
    ""
    ""
    ""
    ""
    "0.00"
    "0.00"
    "credit"
    "0.00"
    "0.00"
    "0.00"
    "credit"
    "0.00"
    "0.00"
    "0.00"
    "0.00"
    "0.00"
    "0.00"
    "0.00"
    "0.00"
    "0.00"
    "0.00"
    "0.00"
    ""
    "<div style=\"margin-bottom:1.5rem;padding:1rem;background:var(--info-dim);border-radius:8px;border-left:3px solid var(--info);font-size:0.9rem;color:var(--info)\"><strong>ℹ️ Note:</strong> Category data not found in JSON. To enable this section, ensure your analysis JSON includes a <code>categories</code> object with <code>credits</code> and <code>debits</code> arrays as defined in schema v5.0.4.</div>"
    "<tr><td colspan=\"4\" style=\"text-align:center;color:var(--text-muted);padding:2rem;font-style:italic\">No credit category data available in JSON</td></tr>"
    "<tr><td colspan=\"4\" style=\"text-align:center;color:var(--text-muted);padding:2rem;font-style:italic\">No debit category data available in JSON</td></tr>"
    ""
    "accent"
    "0"
    ""
    "<li style=\"color:var(--accent)\">✓ No extreme volatility alerts</li>"
    "accent"
    "accent"
    "0"
    "<tr><td>Circular Transfers</td><td><span class=\"volatility-badge volatility-LOW\">PASS</span></td><td class=\"mono text-right\">0</td><td>No A→B→A patterns detected</td></tr><tr><td>Month-End Concentration</td><td><span class=\"volatility-badge volatility-LOW\">PASS</span></td><td class=\"mono text-right\">0</td><td>Normal distribution</td></tr><tr><td>Round Amount Patterns</td><td><span class=\"volatility-badge volatility-LOW\">PASS</span></td><td class=\"mono text-right\">0</td><td>0 round figure transactions</td></tr><tr><td>Timing Exploitation</td><td><span class=\"volatility-badge volatility-LOW\">PASS</span></td><td class=\"mono text-right\">0</td><td>No suspicious timing patterns</td></tr><tr><td>Suspicious Balance Spikes</td><td><span class=\"volatility-badge volatility-LOW\">PASS</span></td><td class=\"mono text-right\">0</td><td>Balance movements within normal range</td></tr><tr><td>Same Amount In/Out</td><td><span class=\"volatility-badge volatility-LOW\">PASS</span></td><td class=\"mono text-right\">0</td><td>No matching in/out amounts detected</td></tr><tr><td>Vague Descriptions</td><td><span class=\"volatility-badge volatility-LOW\">PASS</span></td><td class=\"mono text-right\">0</td><td>Transaction descriptions are clear</td></tr>"
    ""
    "warn"
    "0"
    "25"
    "<tr><td colspan=\"7\" style=\"text-align:center;color:var(--text-muted)\">No integrity checks data available</td></tr>"
    "0"
    "0"
    "accent"
    "0"
    "0"
    "None specified"
    ""
    ""
    "<div style=\"color:var(--text-muted);text-align:center;padding:2rem\">No recommendations</div>"

/-- The part of the compiled empty document after the `generated_at` slot. -/
def genEmptyPost : String :=
  mainTplB "" "" "0" "" "[]" "[]" "[]" "[]" "[]" "[]"

set_option maxRecDepth 16384 in
/-- C1 (counterexample): rendering is *not* deterministic.  On the empty
document (no `report_info.generated_at`), the footer line falls back to
`datetime.now().isoformat()` (src/app.py line 1127, embedded as the `now`
parameter), so two runs at different wall-clock times produce different
bytes: the outputs differ exactly in the timestamp spliced between the fixed
prefix and suffix. -/
theorem C1_counterexample :
    generate_interactive_html (Json.obj []) "2024-01-01T00:00:00"
      ≠ generate_interactive_html (Json.obj []) "2024-01-02T00:00:00" := by
  intro h
  have h1 : generate_interactive_html (Json.obj []) "2024-01-01T00:00:00"
      = Except.ok (genEmptyPre "Company" ++ ("2024-01-01T00:00:00" ++ genEmptyPost)) := by
    rfl
  have h2 : generate_interactive_html (Json.obj []) "2024-01-02T00:00:00"
      = Except.ok (genEmptyPre "Company" ++ ("2024-01-02T00:00:00" ++ genEmptyPost)) := by
    rfl
  rw [h1, h2] at h
  have h3 := congrArg String.data (Except.ok.inj h)
  simp only [String.data_append] at h3
  have h4 := List.append_cancel_right (List.append_cancel_left h3)
  have h5 : ("2024-01-01T00:00:00" : String).data
      = ("2024-01-02T00:00:00" : String).data := h4
  exact absurd h5 (by decide)

set_option maxRecDepth 16384 in
/-- C1 (amended): rendering *is* deterministic whenever the source model
supplies `report_info.generated_at` explicitly: the compiled output is then
independent of the wall-clock `now` argument.  The only other claim of C1 —
no re-sorting of model lists — holds by construction of the fragment
builders; the timestamp clause is what needed amending. -/
theorem C1_deterministic_with_generated_at (d ri g : Json) (now1 now2 : String)
    (h1 : d.lookup? "report_info" = some ri)
    (h2 : ri.lookup? "generated_at" = some g) :
    generate_interactive_html d now1 = generate_interactive_html d now2 := by
  obtain ⟨fs, rfl⟩ : ∃ fs, d = Json.obj fs := by
    cases d
    case obj fs => exact ⟨fs, rfl⟩
    all_goals simp [Json.lookup?] at h1
  obtain ⟨gs, rfl⟩ : ∃ gs, ri = Json.obj gs := by
    cases ri
    case obj gs => exact ⟨gs, rfl⟩
    all_goals simp [Json.lookup?] at h2
  simp only [Json.lookup?] at h1 h2
  have e1 : pyGet (Json.obj fs) "report_info" (Json.obj []) = Except.ok (Json.obj gs) := by
    simp [pyGet, h1]
  have e2 : ∀ now, pyGet (Json.obj gs) "generated_at" (Json.str now) = Except.ok g := by
    intro now; simp [pyGet, h2]
  unfold generate_interactive_html
  refine exceptBindCongr (fun sv => ?_)
  rw [e1, exceptOkBind, exceptOkBind]
  rw [e2 now1, e2 now2]

set_option maxRecDepth 16384 in
/-- C1 witness: a concrete document carrying `report_info.generated_at`
renders identically under two different wall-clock values. -/
theorem C1_witness :
    (Json.obj [("report_info", Json.obj [("generated_at", Json.str "2024-06-01T00:00:00")])]).lookup? "report_info"
        = some (Json.obj [("generated_at", Json.str "2024-06-01T00:00:00")])
    ∧ (Json.obj [("generated_at", Json.str "2024-06-01T00:00:00")]).lookup? "generated_at"
        = some (Json.str "2024-06-01T00:00:00")
    ∧ generate_interactive_html
        (Json.obj [("report_info", Json.obj [("generated_at", Json.str "2024-06-01T00:00:00")])]) "2024-01-01"
      = generate_interactive_html
        (Json.obj [("report_info", Json.obj [("generated_at", Json.str "2024-06-01T00:00:00")])]) "2024-01-02" :=
  ⟨rfl, rfl,
    C1_deterministic_with_generated_at
      (Json.obj [("report_info", Json.obj [("generated_at", Json.str "2024-06-01T00:00:00")])])
      (Json.obj [("generated_at", Json.str "2024-06-01T00:00:00")])
      (Json.str "2024-06-01T00:00:00") "2024-01-01" "2024-01-02" rfl rfl⟩

/-- A document whose company name is an HTML `<script>` payload. -/
def c2doc : Json :=
  Json.obj [("report_info", Json.obj [("company_name", Json.str "<script>alert(1)</script>")])]

set_option maxRecDepth 16384 in
/-- C2: interpolated text is *not* escaped against HTML special characters.
A company name containing a raw `<script>` element is spliced verbatim into
the compiled document: the output is exactly the empty-document output with
the unmodified payload in the company slots of `mainTplA` (the `<title>` and
`<h1>` header positions — compare `genEmptyPre`, whose first argument is
interpolated with no character translation).  This refutes the escaping half
of the claim; the structured-data half (chart series and round-figure lists
go through the `json.dumps` embedding `jsonDumps`) is true but cannot save
the claim, which quantifies over all interpolated text. -/
theorem C2_company_not_escaped (now : String) :
    generate_interactive_html c2doc now
      = Except.ok (genEmptyPre "<script>alert(1)</script>" ++ (now ++ genEmptyPost)) := by
  rfl
